import Mathlib

/-!
# Verification of the moxygen MoQ framer, session helpers and de-jitter buffer

Shallow embedding of the wire codec implemented in `MoQFramer.cpp`, of the
`PublishKey` equality/hash and `ObjectSource::payload` logic of `MoQSession.h`,
and of the de-jitter buffer exercised by `DeJitterTest.cpp`.

Byte buffers are modelled as `List Nat` (each element one octet).  Machine
integers are modelled as `Nat`; QUIC variable-length integers carry values in
`[0, 2^62)` and the encoder fails above that bound, exactly as
`quic::encodeQuicInteger` does.  Fallible parsing returns
`Except ErrorCode (α × List Nat)` (the parsed value and the unconsumed bytes),
mirroring `folly::Expected` plus the cursor position.
-/

namespace MoQ

/-- Error codes surfaced by the framer (the members of `moxygen::ErrorCode`
that the parsing code in `MoQFramer.cpp` produces). -/
inductive ErrorCode where
  | PARSE_UNDERFLOW
  | PARSE_ERROR
  | INVALID_MESSAGE
deriving DecidableEq, Repr

/-- The number of bytes a QUIC varint occupies, determined by the top two bits
of its first byte (RFC 9000 §16, as read by `quic::decodeQuicInteger`). -/
def varintWidth (b : Nat) : Nat :=
  if b < 64 then 1 else if b < 128 then 2 else if b < 192 then 4 else 8

/-- Big-endian value of a varint chunk: the low 6 bits of the first byte are
the leading digit, the remaining bytes are base-256 digits. -/
def vDecode (chunk : List Nat) : Nat :=
  match chunk with
  | [] => 0
  | b :: t => t.foldl (fun acc x => acc * 256 + x) (b % 64)

/-- Model of `quic::decodeQuicInteger`: read the first byte, derive the width
from its top two bits, fail if the cursor cannot advance that far, otherwise
consume the varint and return its value with the remaining bytes. -/
def decodeQuicInteger (bs : List Nat) : Option (Nat × List Nat) :=
  match bs with
  | [] => none
  | b :: rest =>
    if rest.length + 1 < varintWidth b then none
    else some (vDecode (b :: rest.take (varintWidth b - 1)), rest.drop (varintWidth b - 1))

/-- Model of `quic::decodeQuicInteger(cursor, atMost)`: additionally fail when
the encoded width exceeds `atMost`. -/
def decodeQuicIntegerAtMost (atMost : Nat) (bs : List Nat) : Option (Nat × List Nat) :=
  match bs with
  | [] => none
  | b :: _ => if atMost < varintWidth b then none else decodeQuicInteger bs

/-- Shortest-form QUIC varint byte sequence for `n < 2^62` (the byte list that
`quic::encodeQuicInteger` appends). Values `≥ 2^62` never reach this function
in the model (see `encodeQuicInteger`). -/
def encVarint (n : Nat) : List Nat :=
  if n < 64 then [n]
  else if n < 16384 then [64 + n / 256, n % 256]
  else if n < 1073741824 then
    [128 + n / 16777216, n / 65536 % 256, n / 256 % 256, n % 256]
  else
    [192 + n / 72057594037927936, n / 281474976710656 % 256, n / 1099511627776 % 256,
     n / 4294967296 % 256, n / 16777216 % 256, n / 65536 % 256, n / 256 % 256, n % 256]

/-- Model of `quic::encodeQuicInteger`: shortest-form encoding, failing on
values outside the 62-bit range. -/
def encodeQuicInteger (n : Nat) : Option (List Nat) :=
  if n < 4611686018427387904 then some (encVarint n) else none

/-- A parser over a byte cursor: returns the parsed value and the unconsumed
suffix, or an `ErrorCode`. -/
def Parser (α : Type) : Type := List Nat → Except ErrorCode (α × List Nat)

/-- Sequencing with early return on error — the shape of every
`if (!res) return folly::makeUnexpected(...)` block in `MoQFramer.cpp`. -/
def pBind {α β : Type} (p : Parser α) (f : α → Parser β) : Parser β := fun bs =>
  match p bs with
  | .error e => .error e
  | .ok (a, rest) => f a rest

/-- Succeed without consuming input. -/
def pPure {α : Type} (a : α) : Parser α := fun bs => .ok (a, bs)

/-- Fail with the given error code. -/
def pFail {α : Type} (e : ErrorCode) : Parser α := fun _ => .error e

/-- Map over a parser result. -/
def pMap {α β : Type} (f : α → β) (p : Parser α) : Parser β :=
  pBind p (fun a => pPure (f a))

/-- `quic::decodeQuicInteger` as a parser; a failed decode is reported as
`PARSE_UNDERFLOW` by every caller in `MoQFramer.cpp`. -/
def pVarint : Parser Nat := fun bs =>
  match decodeQuicInteger bs with
  | none => .error .PARSE_UNDERFLOW
  | some (v, rest) => .ok (v, rest)

/-- Length-limited varint decode (`quic::decodeQuicInteger(cursor, atMost)`). -/
def pVarintAtMost (atMost : Nat) : Parser Nat := fun bs =>
  match decodeQuicIntegerAtMost atMost bs with
  | none => .error .PARSE_UNDERFLOW
  | some (v, rest) => .ok (v, rest)

/-- `cursor.canAdvance(1)` check followed by `cursor.readBE<uint8_t>()`. -/
def pByte : Parser Nat := fun bs =>
  match bs with
  | b :: rest => .ok (b, rest)
  | [] => .error .PARSE_UNDERFLOW

/-- `cursor.canAdvance(2)` check followed by two `readBE<uint8_t>()` calls
(the pattern of `parseSubscribeRequest` and `parseSubscribeOk`). -/
def pByte2 : Parser (Nat × Nat) := fun bs =>
  match bs with
  | b1 :: b2 :: rest => .ok ((b1, b2), rest)
  | _ => .error .PARSE_UNDERFLOW

/-- `parseFixedString`: varint length prefix, then that many raw bytes; both
a missing length and a short cursor yield `PARSE_UNDERFLOW`. -/
def parseFixedString : Parser (List Nat) := fun bs =>
  match decodeQuicInteger bs with
  | none => .error .PARSE_UNDERFLOW
  | some (strLength, rest) =>
    if strLength ≤ rest.length then .ok (rest.take strLength, rest.drop strLength)
    else .error .PARSE_UNDERFLOW

/-- `FullTrackName` — namespace and name, each a length-prefixed byte string. -/
structure FullTrackName where
  trackNamespace : List Nat
  trackName : List Nat
deriving DecidableEq, Repr

/-- `AbsoluteLocation` — a (group, object) pair. -/
structure AbsoluteLocation where
  group : Nat
  object : Nat
deriving DecidableEq, Repr

/-- Setup parameter: a key plus either a varint payload (key `ROLE = 0`) or a
length-prefixed byte string.  Field declarations (`MoQFramer.h`) are not under
src/; the two payload members with their zero/empty defaults are as used by
`parseSetupParams` / `writeClientSetup`. -/
structure SetupParameter where
  key : Nat
  asUint64 : Nat
  asString : List Nat
deriving DecidableEq, Repr

/-- Track request parameter: key plus length-prefixed byte string. -/
structure TrackRequestParameter where
  key : Nat
  value : List Nat
deriving DecidableEq, Repr

/-- `SetupKey::ROLE` — the spec fixes `Role = 0`. -/
def setupKeyRole : Nat := 0

/-- Modelled from the spec: `SubscribeErrorCode::RETRY_TRACK_ALIAS`.  The enum
declaration (`MoQFramer.h`) is not under src/; the spec fixes only that this
code exists, its numeric value follows the MoQT draft the code targets. -/
def kRetryTrackAlias : Nat := 2

/-- `ClientSetup` message. -/
structure ClientSetup where
  supportedVersions : List Nat
  params : List SetupParameter
deriving DecidableEq, Repr

/-- `ServerSetup` message. -/
structure ServerSetup where
  selectedVersion : Nat
  params : List SetupParameter
deriving DecidableEq, Repr

/-- `SubscribeRequest` message.  Enumerations with an in-memory underlying
integer (`GroupOrder`, `LocationType`) are modelled as `Nat` with the numeric
values the spec fixes (`GroupOrder ∈ {0,1,2}`, `LocationType ∈ {1,2,3,4}`);
`end` is named `endLoc` because `end` is a Lean keyword. -/
structure SubscribeRequest where
  subscribeID : Nat
  trackAlias : Nat
  fullTrackName : FullTrackName
  priority : Nat
  groupOrder : Nat
  locType : Nat
  start : Option AbsoluteLocation
  endLoc : Option AbsoluteLocation
  params : List TrackRequestParameter
deriving DecidableEq, Repr

/-- `SubscribeUpdate` message. -/
structure SubscribeUpdate where
  subscribeID : Nat
  start : AbsoluteLocation
  endLoc : AbsoluteLocation
  priority : Nat
  params : List TrackRequestParameter
deriving DecidableEq, Repr

/-- `SubscribeOk` message; `expires` is the millisecond count of the
`std::chrono::milliseconds` field. -/
structure SubscribeOk where
  subscribeID : Nat
  expires : Nat
  groupOrder : Nat
  latest : Option AbsoluteLocation
  params : List TrackRequestParameter
deriving DecidableEq, Repr

/-- `SubscribeError` message. -/
structure SubscribeError where
  subscribeID : Nat
  errorCode : Nat
  reasonPhrase : List Nat
  retryAlias : Option Nat
deriving DecidableEq, Repr

/-- `Unsubscribe` message. -/
structure Unsubscribe where
  subscribeID : Nat
deriving DecidableEq, Repr

/-- `SubscribeDone` message (`statusCode` is the underlying integer of
`SubscribeDoneStatusCode`, stored unvalidated by the parser). -/
structure SubscribeDone where
  subscribeID : Nat
  statusCode : Nat
  reasonPhrase : List Nat
  finalObject : Option AbsoluteLocation
deriving DecidableEq, Repr

/-- `Announce` message. -/
structure Announce where
  trackNamespace : List Nat
  params : List TrackRequestParameter
deriving DecidableEq, Repr

/-- `AnnounceOk` message. -/
structure AnnounceOk where
  trackNamespace : List Nat
deriving DecidableEq, Repr

/-- `AnnounceError` message. -/
structure AnnounceError where
  trackNamespace : List Nat
  errorCode : Nat
  reasonPhrase : List Nat
deriving DecidableEq, Repr

/-- `Unannounce` message. -/
structure Unannounce where
  trackNamespace : List Nat
deriving DecidableEq, Repr

/-- `AnnounceCancel` message. -/
structure AnnounceCancel where
  trackNamespace : List Nat
  errorCode : Nat
  reasonPhrase : List Nat
deriving DecidableEq, Repr

/-- `TrackStatusRequest` message. -/
structure TrackStatusRequest where
  fullTrackName : FullTrackName
deriving DecidableEq, Repr

/-- `TrackStatus` message (`statusCode` is the underlying integer of
`TrackStatusCode`: `InProgress=0 … Unknown=4`; default-constructed
`fullTrackName` is the empty pair). -/
structure TrackStatus where
  fullTrackName : FullTrackName
  statusCode : Nat
  latestGroupAndObject : Option AbsoluteLocation
deriving DecidableEq, Repr

/-- `Goaway` message. -/
structure Goaway where
  newSessionUri : List Nat
deriving DecidableEq, Repr

/-- `ForwardPreference` — how a publisher multiplexes objects over streams. -/
inductive ForwardPreference where
  | Track
  | Group
  | Object
  | Datagram
deriving DecidableEq, Repr

/-- `ObjectHeader`; `status` is the underlying integer of `ObjectStatus`
(`Normal=0 … EndOfTrackAndGroup=4`), `length` the optional payload length. -/
structure ObjectHeader where
  subscribeID : Nat
  trackAlias : Nat
  group : Nat
  id : Nat
  priority : Nat
  forwardPreference : ForwardPreference
  status : Nat
  length : Option Nat
deriving DecidableEq, Repr

/-- Frame types of the top-level messages. -/
inductive FrameType where
  | OBJECT_STREAM
  | OBJECT_DATAGRAM
  | CLIENT_SETUP
  | SERVER_SETUP
  | SUBSCRIBE
  | SUBSCRIBE_UPDATE
  | SUBSCRIBE_OK
  | SUBSCRIBE_ERROR
  | UNSUBSCRIBE
  | SUBSCRIBE_DONE
  | ANNOUNCE
  | ANNOUNCE_OK
  | ANNOUNCE_ERROR
  | UNANNOUNCE
  | ANNOUNCE_CANCEL
  | TRACK_STATUS_REQUEST
  | TRACK_STATUS
  | GOAWAY
deriving DecidableEq, Repr

/-- Modelled from the spec: the numeric frame-type tags.  The enum with its
values (`MoQFramer.h`) is not under src/; the spec says the tags follow the
MoQT draft the implementation targets, and every claim here concerns only the
bytes after the tag. -/
def frameTypeVal : FrameType → Nat
  | .OBJECT_STREAM => 0x0
  | .OBJECT_DATAGRAM => 0x1
  | .SUBSCRIBE_UPDATE => 0x2
  | .SUBSCRIBE => 0x3
  | .SUBSCRIBE_OK => 0x4
  | .SUBSCRIBE_ERROR => 0x5
  | .ANNOUNCE => 0x6
  | .ANNOUNCE_OK => 0x7
  | .ANNOUNCE_ERROR => 0x8
  | .UNANNOUNCE => 0x9
  | .UNSUBSCRIBE => 0xa
  | .SUBSCRIBE_DONE => 0xb
  | .ANNOUNCE_CANCEL => 0xc
  | .TRACK_STATUS_REQUEST => 0xd
  | .TRACK_STATUS => 0xe
  | .GOAWAY => 0x10
  | .CLIENT_SETUP => 0x40
  | .SERVER_SETUP => 0x41

/-- `parseSetupParams`: `numParams` iterations; key `ROLE = 0` carries a
varint length followed by a length-limited varint value, any other key a
length-prefixed string.  The untouched member keeps its default
(`asUint64 = 0`, `asString` empty). -/
def parseSetupParams : Nat → Parser (List SetupParameter)
  | 0 => pPure []
  | n + 1 =>
    pBind pVarint fun key =>
    if key = setupKeyRole then
      pBind pVarint fun len =>
      pBind (pVarintAtMost len) fun value =>
      pBind (parseSetupParams n) fun rest =>
      pPure ({ key := key, asUint64 := value, asString := [] } :: rest)
    else
      pBind parseFixedString fun s =>
      pBind (parseSetupParams n) fun rest =>
      pPure ({ key := key, asUint64 := 0, asString := s } :: rest)

/-- `parseFullTrackName`: two length-prefixed strings. -/
def parseFullTrackName : Parser FullTrackName :=
  pBind parseFixedString fun ns =>
  pBind parseFixedString fun nm =>
  pPure { trackNamespace := ns, trackName := nm }

/-- `parseAbsoluteLocation`: two varints. -/
def parseAbsoluteLocation : Parser AbsoluteLocation :=
  pBind pVarint fun group =>
  pBind pVarint fun object =>
  pPure { group := group, object := object }

/-- The version loop at the head of `parseClientSetup`. -/
def parseVersions : Nat → Parser (List Nat)
  | 0 => pPure []
  | n + 1 =>
    pBind pVarint fun v =>
    pBind (parseVersions n) fun rest =>
    pPure (v :: rest)

/-- `parseClientSetup`. -/
def parseClientSetup : Parser ClientSetup :=
  pBind pVarint fun numVersions =>
  pBind (parseVersions numVersions) fun versions =>
  pBind pVarint fun numParams =>
  pBind (parseSetupParams numParams) fun params =>
  pPure { supportedVersions := versions, params := params }

/-- `parseServerSetup`. -/
def parseServerSetup : Parser ServerSetup :=
  pBind pVarint fun version =>
  pBind pVarint fun numParams =>
  pBind (parseSetupParams numParams) fun params =>
  pPure { selectedVersion := version, params := params }

/-- `parseObjectHeader` (frame types `OBJECT_STREAM` / `OBJECT_DATAGRAM`):
four varints, a raw priority byte, then the status varint which is rejected
with `PARSE_ERROR` above `ObjectStatus::END_OF_TRACK_AND_GROUP = 4`. -/
def parseObjectHeader (frameType : FrameType) : Parser ObjectHeader :=
  pBind pVarint fun subscribeID =>
  pBind pVarint fun trackAlias =>
  pBind pVarint fun group =>
  pBind pVarint fun id =>
  pBind pByte fun priority =>
  pBind pVarint fun objectStatus =>
  if 4 < objectStatus then pFail .PARSE_ERROR
  else
    pPure { subscribeID := subscribeID, trackAlias := trackAlias, group := group,
            id := id, priority := priority, status := objectStatus,
            forwardPreference :=
              if frameType = .OBJECT_STREAM then .Object else .Datagram,
            length := none }

/-- `parseTrackRequestParams`: `numParams` iterations of key + string. -/
def parseTrackRequestParams : Nat → Parser (List TrackRequestParameter)
  | 0 => pPure []
  | n + 1 =>
    pBind pVarint fun key =>
    pBind parseFixedString fun s =>
    pBind (parseTrackRequestParams n) fun rest =>
    pPure ({ key := key, value := s } :: rest)

/-- `parseSubscribeRequest`.  The group-order byte is rejected with
`INVALID_MESSAGE` above `GroupOrder::NewestFirst = 2`; the location-type
varint with `PARSE_ERROR` above `LocationType::AbsoluteRange = 4`; `start`
is present for `AbsoluteStart = 3` and `AbsoluteRange = 4`, `end` only for
`AbsoluteRange`. -/
def parseSubscribeRequest : Parser SubscribeRequest :=
  pBind pVarint fun subscribeID =>
  pBind pVarint fun trackAlias =>
  pBind parseFullTrackName fun fullTrackName =>
  pBind pByte2 fun priorityOrder =>
  if 2 < priorityOrder.2 then pFail .INVALID_MESSAGE
  else
    pBind pVarint fun locType =>
    if 4 < locType then pFail .PARSE_ERROR
    else
      pBind (if locType = 3 ∨ locType = 4 then pMap some parseAbsoluteLocation
             else pPure none) fun start =>
      pBind (if locType = 4 then pMap some parseAbsoluteLocation
             else pPure none) fun endLoc =>
      pBind pVarint fun numParams =>
      pBind (parseTrackRequestParams numParams) fun params =>
      pPure { subscribeID := subscribeID, trackAlias := trackAlias,
              fullTrackName := fullTrackName, priority := priorityOrder.1,
              groupOrder := priorityOrder.2, locType := locType,
              start := start, endLoc := endLoc, params := params }

/-- `parseSubscribeUpdate`. -/
def parseSubscribeUpdate : Parser SubscribeUpdate :=
  pBind pVarint fun subscribeID =>
  pBind parseAbsoluteLocation fun start =>
  pBind parseAbsoluteLocation fun endLoc =>
  pBind pByte fun priority =>
  pBind pVarint fun numParams =>
  pBind (parseTrackRequestParams numParams) fun params =>
  pPure { subscribeID := subscribeID, start := start, endLoc := endLoc,
          priority := priority, params := params }

/-- `parseSubscribeOk`.  Group order `0` (or above `NewestFirst = 2`) is
rejected with `INVALID_MESSAGE`; the `latest` location is present iff the
content-exists byte is non-zero. -/
def parseSubscribeOk : Parser SubscribeOk :=
  pBind pVarint fun subscribeID =>
  pBind pVarint fun expires =>
  pBind pByte2 fun orderContent =>
  if orderContent.1 = 0 ∨ 2 < orderContent.1 then pFail .INVALID_MESSAGE
  else
    pBind (if orderContent.2 ≠ 0 then pMap some parseAbsoluteLocation
           else pPure none) fun latest =>
    pBind pVarint fun numParams =>
    pBind (parseTrackRequestParams numParams) fun params =>
    pPure { subscribeID := subscribeID, expires := expires,
            groupOrder := orderContent.1, latest := latest, params := params }

/-- `parseSubscribeError`.  The trailing varint is always consumed but stored
in `retryAlias` only when `errorCode == RETRY_TRACK_ALIAS`. -/
def parseSubscribeError : Parser SubscribeError :=
  pBind pVarint fun subscribeID =>
  pBind pVarint fun errorCode =>
  pBind parseFixedString fun reasonPhrase =>
  pBind pVarint fun retryAlias =>
  pPure { subscribeID := subscribeID, errorCode := errorCode,
          reasonPhrase := reasonPhrase,
          retryAlias := if errorCode = kRetryTrackAlias then some retryAlias else none }

/-- `parseUnsubscribe`. -/
def parseUnsubscribe : Parser Unsubscribe :=
  pBind pVarint fun subscribeID =>
  pPure { subscribeID := subscribeID }

/-- `parseSubscribeDone`. -/
def parseSubscribeDone : Parser SubscribeDone :=
  pBind pVarint fun subscribeID =>
  pBind pVarint fun statusCode =>
  pBind parseFixedString fun reasonPhrase =>
  pBind pByte fun contentExists =>
  pBind (if contentExists ≠ 0 then pMap some parseAbsoluteLocation
         else pPure none) fun finalObject =>
  pPure { subscribeID := subscribeID, statusCode := statusCode,
          reasonPhrase := reasonPhrase, finalObject := finalObject }

/-- `parseAnnounce`. -/
def parseAnnounce : Parser Announce :=
  pBind parseFixedString fun ns =>
  pBind pVarint fun numParams =>
  pBind (parseTrackRequestParams numParams) fun params =>
  pPure { trackNamespace := ns, params := params }

/-- `parseAnnounceOk`. -/
def parseAnnounceOk : Parser AnnounceOk :=
  pBind parseFixedString fun ns =>
  pPure { trackNamespace := ns }

/-- `parseAnnounceError`. -/
def parseAnnounceError : Parser AnnounceError :=
  pBind parseFixedString fun ns =>
  pBind pVarint fun errorCode =>
  pBind parseFixedString fun reasonPhrase =>
  pPure { trackNamespace := ns, errorCode := errorCode, reasonPhrase := reasonPhrase }

/-- `parseUnannounce`. -/
def parseUnannounce : Parser Unannounce :=
  pBind parseFixedString fun ns =>
  pPure { trackNamespace := ns }

/-- `parseAnnounceCancel`. -/
def parseAnnounceCancel : Parser AnnounceCancel :=
  pBind parseFixedString fun ns =>
  pBind pVarint fun errorCode =>
  pBind parseFixedString fun reasonPhrase =>
  pPure { trackNamespace := ns, errorCode := errorCode, reasonPhrase := reasonPhrase }

/-- `parseTrackStatusRequest`. -/
def parseTrackStatusRequest : Parser TrackStatusRequest :=
  pBind parseFullTrackName fun ftn =>
  pPure { fullTrackName := ftn }

/-- `parseTrackStatus`.  Faithful to the source: the parsed `FullTrackName`
is checked for errors but never assigned to the result, which therefore keeps
the default (empty) name; the status code is rejected with `INVALID_MESSAGE`
above `TrackStatusCode::UNKNOWN = 4`. -/
def parseTrackStatus : Parser TrackStatus :=
  pBind parseFullTrackName fun _ =>
  pBind pVarint fun statusCode =>
  if 4 < statusCode then pFail .INVALID_MESSAGE
  else
    pBind parseAbsoluteLocation fun location =>
    pPure { fullTrackName := { trackNamespace := [], trackName := [] },
            statusCode := statusCode, latestGroupAndObject := some location }

/-- `parseGoaway`. -/
def parseGoaway : Parser Goaway :=
  pBind parseFixedString fun uri =>
  pPure { newSessionUri := uri }

/-- Egress state: the byte queue, the running `size` accumulator that the
write functions return, and the shared `error` flag. -/
structure WState where
  buf : List Nat
  size : Nat
  error : Bool
deriving DecidableEq, Repr

/-- The empty write buffer every `write*` function starts from. -/
def wstate0 : WState := { buf := [], size := 0, error := false }

/-- `writeVarint`: a no-op when the error flag is already set; otherwise
encode, set the flag on failure, and count the appended bytes in `size`. -/
def writeVarint (st : WState) (value : Nat) : WState :=
  if st.error then st
  else
    match encodeQuicInteger value with
    | none => { st with error := true }
    | some bytes => { buf := st.buf ++ bytes, size := st.size + bytes.length, error := false }

/-- `writeFixedString`: length varint then raw bytes.  The C++ function takes
the error flag by value, so a failure inside it suppresses the string append
but does not propagate to the caller's flag. -/
def writeFixedString (st : WState) (s : List Nat) : WState :=
  let st2 := writeVarint st s.length
  let st3 := if st2.error then st2
             else { buf := st2.buf ++ s, size := st2.size + s.length, error := st2.error }
  { st3 with error := st.error }

/-- `writeFullTrackName`. -/
def writeFullTrackName (st : WState) (ftn : FullTrackName) : WState :=
  writeFixedString (writeFixedString st ftn.trackNamespace) ftn.trackName

/-- A raw one-byte `writeBuf.append(&x, 1)`: unconditional, uncounted. -/
def appendRawByte (st : WState) (b : Nat) : WState :=
  { st with buf := st.buf ++ [b] }

/-- The setup-parameter loop of `writeClientSetup` / `writeServerSetup`
(key `ROLE = 0` gets varint length 1 plus the varint value; the C++ code
additionally CHECKs `asUint64 ≤ Role::PUB_AND_SUB = 3`, which aborts rather
than returning, so well-formed inputs satisfy that bound). -/
def writeSetupParams (st : WState) (params : List SetupParameter) : WState :=
  params.foldl (fun st p =>
    let st := writeVarint st p.key
    if p.key = setupKeyRole then writeVarint (writeVarint st 1) p.asUint64
    else writeFixedString st p.asString) st

/-- The version loop of `writeClientSetup`. -/
def writeVersions (st : WState) (versions : List Nat) : WState :=
  versions.foldl writeVarint st

/-- The track-request-parameter loop shared by the subscribe/announce
writers. -/
def writeTrackParams (st : WState) (params : List TrackRequestParameter) : WState :=
  params.foldl (fun st p => writeFixedString (writeVarint st p.key) p.value) st

/-- `writeClientSetup`. -/
def writeClientSetup (writeBuf : WState) (clientSetup : ClientSetup) : WState :=
  let st := writeVarint writeBuf (frameTypeVal .CLIENT_SETUP)
  let st := writeVarint st clientSetup.supportedVersions.length
  let st := writeVersions st clientSetup.supportedVersions
  let st := writeVarint st clientSetup.params.length
  writeSetupParams st clientSetup.params

/-- `writeServerSetup`. -/
def writeServerSetup (writeBuf : WState) (serverSetup : ServerSetup) : WState :=
  let st := writeVarint writeBuf (frameTypeVal .SERVER_SETUP)
  let st := writeVarint st serverSetup.selectedVersion
  let st := writeVarint st serverSetup.params.length
  writeSetupParams st serverSetup.params

/-- `writeObject`.  For forward preferences `Object` / `Datagram` the single
object header is written (raw priority byte, then the status varint); for
multi-object streams the length varint plus, when zero, the status varint.
The C++ CHECK on a missing length aborts; modelled as the error flag.  The
payload is appended uncounted, and only when no error occurred. -/
def writeObject (writeBuf : WState) (objectHeader : ObjectHeader)
    (objectPayload : Option (List Nat)) : WState :=
  let stm : WState × Bool :=
    if objectHeader.forwardPreference = .Object then
      (writeVarint writeBuf (frameTypeVal .OBJECT_STREAM), false)
    else if objectHeader.forwardPreference = .Datagram then
      (writeVarint writeBuf (frameTypeVal .OBJECT_DATAGRAM), false)
    else (writeBuf, true)
  let st := stm.1
  let multiObject := stm.2
  let st := if multiObject = false then
      writeVarint (writeVarint st objectHeader.subscribeID) objectHeader.trackAlias
    else st
  let st := if objectHeader.forwardPreference ≠ .Group then
      writeVarint st objectHeader.group
    else st
  let st := writeVarint st objectHeader.id
  let st :=
    if multiObject = false then
      writeVarint (appendRawByte st objectHeader.priority) objectHeader.status
    else
      match objectHeader.length with
      | some l =>
        if l = 0 then writeVarint (writeVarint st l) objectHeader.status
        else writeVarint st l
      | none => { st with error := true }
  if st.error then st
  else
    match objectPayload with
    | some p => { st with buf := st.buf ++ p }
    | none => st

/-- `writeSubscribeRequest`.  The priority and group-order bytes are appended
raw (uncounted); `start`/`end` are written for the absolute location types.
The C++ code dereferences the optionals, so well-formed inputs carry them. -/
def writeSubscribeRequest (writeBuf : WState) (subscribeRequest : SubscribeRequest) : WState :=
  let st := writeVarint writeBuf (frameTypeVal .SUBSCRIBE)
  let st := writeVarint st subscribeRequest.subscribeID
  let st := writeVarint st subscribeRequest.trackAlias
  let st := writeFullTrackName st subscribeRequest.fullTrackName
  let st := appendRawByte st subscribeRequest.priority
  let st := appendRawByte st subscribeRequest.groupOrder
  let st := writeVarint st subscribeRequest.locType
  let st := if subscribeRequest.locType = 3 ∨ subscribeRequest.locType = 4 then
      writeVarint (writeVarint st (subscribeRequest.start.getD ⟨0, 0⟩).group)
        (subscribeRequest.start.getD ⟨0, 0⟩).object
    else st
  let st := if subscribeRequest.locType = 4 then
      writeVarint (writeVarint st (subscribeRequest.endLoc.getD ⟨0, 0⟩).group)
        (subscribeRequest.endLoc.getD ⟨0, 0⟩).object
    else st
  let st := writeVarint st subscribeRequest.params.length
  writeTrackParams st subscribeRequest.params

/-- `writeSubscribeUpdate` (priority byte appended raw, uncounted). -/
def writeSubscribeUpdate (writeBuf : WState) (update : SubscribeUpdate) : WState :=
  let st := writeVarint writeBuf (frameTypeVal .SUBSCRIBE_UPDATE)
  let st := writeVarint st update.subscribeID
  let st := writeVarint st update.start.group
  let st := writeVarint st update.start.object
  let st := writeVarint st update.endLoc.group
  let st := writeVarint st update.endLoc.object
  let st := appendRawByte st update.priority
  let st := writeVarint st update.params.length
  writeTrackParams st update.params

/-- `writeSubscribeOk` (group-order byte appended raw, uncounted; the
content-exists flag is written as a varint). -/
def writeSubscribeOk (writeBuf : WState) (subscribeOk : SubscribeOk) : WState :=
  let st := writeVarint writeBuf (frameTypeVal .SUBSCRIBE_OK)
  let st := writeVarint st subscribeOk.subscribeID
  let st := writeVarint st subscribeOk.expires
  let st := appendRawByte st subscribeOk.groupOrder
  let st := match subscribeOk.latest with
    | some latest => writeVarint (writeVarint (writeVarint st 1) latest.group) latest.object
    | none => writeVarint st 0
  let st := writeVarint st subscribeOk.params.length
  writeTrackParams st subscribeOk.params

/-- `writeSubscribeError` — the trailing `retryAlias` varint is always
written, as `retryAlias.value_or(0)`. -/
def writeSubscribeError (writeBuf : WState) (subscribeError : SubscribeError) : WState :=
  let st := writeVarint writeBuf (frameTypeVal .SUBSCRIBE_ERROR)
  let st := writeVarint st subscribeError.subscribeID
  let st := writeVarint st subscribeError.errorCode
  let st := writeFixedString st subscribeError.reasonPhrase
  writeVarint st (subscribeError.retryAlias.getD 0)

/-- `writeUnsubscribe`. -/
def writeUnsubscribe (writeBuf : WState) (unsubscribe : Unsubscribe) : WState :=
  let st := writeVarint writeBuf (frameTypeVal .UNSUBSCRIBE)
  writeVarint st unsubscribe.subscribeID

/-- `writeSubscribeDone`. -/
def writeSubscribeDone (writeBuf : WState) (subscribeDone : SubscribeDone) : WState :=
  let st := writeVarint writeBuf (frameTypeVal .SUBSCRIBE_DONE)
  let st := writeVarint st subscribeDone.subscribeID
  let st := writeVarint st subscribeDone.statusCode
  let st := writeFixedString st subscribeDone.reasonPhrase
  match subscribeDone.finalObject with
  | some final => writeVarint (writeVarint (writeVarint st 1) final.group) final.object
  | none => writeVarint st 0

/-- `writeAnnounce`. -/
def writeAnnounce (writeBuf : WState) (announce : Announce) : WState :=
  let st := writeVarint writeBuf (frameTypeVal .ANNOUNCE)
  let st := writeFixedString st announce.trackNamespace
  let st := writeVarint st announce.params.length
  writeTrackParams st announce.params

/-- `writeAnnounceOk`. -/
def writeAnnounceOk (writeBuf : WState) (announceOk : AnnounceOk) : WState :=
  let st := writeVarint writeBuf (frameTypeVal .ANNOUNCE_OK)
  writeFixedString st announceOk.trackNamespace

/-- `writeAnnounceError`. -/
def writeAnnounceError (writeBuf : WState) (announceError : AnnounceError) : WState :=
  let st := writeVarint writeBuf (frameTypeVal .ANNOUNCE_ERROR)
  let st := writeFixedString st announceError.trackNamespace
  let st := writeVarint st announceError.errorCode
  writeFixedString st announceError.reasonPhrase

/-- `writeUnannounce`. -/
def writeUnannounce (writeBuf : WState) (unannounce : Unannounce) : WState :=
  let st := writeVarint writeBuf (frameTypeVal .UNANNOUNCE)
  writeFixedString st unannounce.trackNamespace

/-- `writeAnnounceCancel`. -/
def writeAnnounceCancel (writeBuf : WState) (announceCancel : AnnounceCancel) : WState :=
  let st := writeVarint writeBuf (frameTypeVal .ANNOUNCE_CANCEL)
  let st := writeFixedString st announceCancel.trackNamespace
  let st := writeVarint st announceCancel.errorCode
  writeFixedString st announceCancel.reasonPhrase

/-- `writeTrackStatusRequest`. -/
def writeTrackStatusRequest (writeBuf : WState) (trackStatusRequest : TrackStatusRequest) : WState :=
  let st := writeVarint writeBuf (frameTypeVal .TRACK_STATUS_REQUEST)
  writeFullTrackName st trackStatusRequest.fullTrackName

/-- `writeTrackStatus` — the latest location is written when the status is
`IN_PROGRESS = 0` (the C++ code dereferences the optional; the out-of-contract
`none` case is modelled with `getD`), otherwise the zero pair. -/
def writeTrackStatus (writeBuf : WState) (trackStatus : TrackStatus) : WState :=
  let st := writeVarint writeBuf (frameTypeVal .TRACK_STATUS)
  let st := writeFullTrackName st trackStatus.fullTrackName
  let st := writeVarint st trackStatus.statusCode
  if trackStatus.statusCode = 0 then
    writeVarint (writeVarint st (trackStatus.latestGroupAndObject.getD ⟨0, 0⟩).group)
      (trackStatus.latestGroupAndObject.getD ⟨0, 0⟩).object
  else
    writeVarint (writeVarint st 0) 0

/-- `writeGoaway`. -/
def writeGoaway (writeBuf : WState) (goaway : Goaway) : WState :=
  let st := writeVarint writeBuf (frameTypeVal .GOAWAY)
  writeFixedString st goaway.newSessionUri

/-- Upper bound of representable varint values, `2^62`. -/
def kVarintMax : Nat := 4611686018427387904

/-- A byte string whose length fits in a varint. -/
@[reducible] def strWf (s : List Nat) : Prop := s.length < kVarintMax

/-- A location whose coordinates fit in varints. -/
@[reducible] def locWf (l : AbsoluteLocation) : Prop := l.group < kVarintMax ∧ l.object < kVarintMax

/-- Field constraints of a setup parameter: the `ROLE` key carries a role
value (`≤ PUB_AND_SUB = 3`, enforced by a CHECK in the writer) and leaves the
string member at its default; other keys carry a string and leave the integer
member at its default. -/
@[reducible] def setupParamWf (p : SetupParameter) : Prop :=
  p.key < kVarintMax ∧
  (p.key = setupKeyRole → p.asUint64 ≤ 3 ∧ p.asString = []) ∧
  (p.key ≠ setupKeyRole → p.asUint64 = 0 ∧ strWf p.asString)

/-- Field constraints of a track request parameter. -/
@[reducible] def trackParamWf (p : TrackRequestParameter) : Prop :=
  p.key < kVarintMax ∧ strWf p.value

/-- Field constraints of `ClientSetup`. -/
@[reducible] def wfClientSetup (m : ClientSetup) : Prop :=
  m.supportedVersions.length < kVarintMax ∧ (∀ v ∈ m.supportedVersions, v < kVarintMax) ∧
  m.params.length < kVarintMax ∧ ∀ p ∈ m.params, setupParamWf p

/-- Field constraints of `ServerSetup`. -/
@[reducible] def wfServerSetup (m : ServerSetup) : Prop :=
  m.selectedVersion < kVarintMax ∧
  m.params.length < kVarintMax ∧ ∀ p ∈ m.params, setupParamWf p

/-- Field constraints of `SubscribeRequest`: varint bounds, one-byte priority,
`GroupOrder ≤ NewestFirst`, `LocationType ≤ AbsoluteRange`, and the
start/end locations present exactly for the absolute location types. -/
@[reducible] def wfSubscribeRequest (m : SubscribeRequest) : Prop :=
  m.subscribeID < kVarintMax ∧ m.trackAlias < kVarintMax ∧
  strWf m.fullTrackName.trackNamespace ∧ strWf m.fullTrackName.trackName ∧
  m.priority < 256 ∧ m.groupOrder ≤ 2 ∧ m.locType ≤ 4 ∧
  (m.start.isSome ↔ (m.locType = 3 ∨ m.locType = 4)) ∧
  (m.endLoc.isSome ↔ m.locType = 4) ∧
  locWf (m.start.getD ⟨0, 0⟩) ∧ locWf (m.endLoc.getD ⟨0, 0⟩) ∧
  m.params.length < kVarintMax ∧ ∀ p ∈ m.params, trackParamWf p

/-- Field constraints of `SubscribeUpdate`. -/
@[reducible] def wfSubscribeUpdate (m : SubscribeUpdate) : Prop :=
  m.subscribeID < kVarintMax ∧ locWf m.start ∧ locWf m.endLoc ∧ m.priority < 256 ∧
  m.params.length < kVarintMax ∧ ∀ p ∈ m.params, trackParamWf p

/-- Field constraints of `SubscribeOk`: the group order must be `OldestFirst`
or `NewestFirst` (`Default = 0` is forbidden on the wire). -/
@[reducible] def wfSubscribeOk (m : SubscribeOk) : Prop :=
  m.subscribeID < kVarintMax ∧ m.expires < kVarintMax ∧
  (m.groupOrder = 1 ∨ m.groupOrder = 2) ∧ locWf (m.latest.getD ⟨0, 0⟩) ∧
  m.params.length < kVarintMax ∧ ∀ p ∈ m.params, trackParamWf p

/-- Field constraints of `SubscribeError`: the retry alias is carried exactly
when the code is `RETRY_TRACK_ALIAS`. -/
@[reducible] def wfSubscribeError (m : SubscribeError) : Prop :=
  m.subscribeID < kVarintMax ∧ m.errorCode < kVarintMax ∧ strWf m.reasonPhrase ∧
  (m.retryAlias.isSome ↔ m.errorCode = kRetryTrackAlias) ∧
  m.retryAlias.getD 0 < kVarintMax

/-- Field constraints of `Unsubscribe`. -/
@[reducible] def wfUnsubscribe (m : Unsubscribe) : Prop := m.subscribeID < kVarintMax

/-- Field constraints of `SubscribeDone`. -/
@[reducible] def wfSubscribeDone (m : SubscribeDone) : Prop :=
  m.subscribeID < kVarintMax ∧ m.statusCode < kVarintMax ∧ strWf m.reasonPhrase ∧
  locWf (m.finalObject.getD ⟨0, 0⟩)

/-- Field constraints of `Announce`. -/
@[reducible] def wfAnnounce (m : Announce) : Prop :=
  strWf m.trackNamespace ∧ m.params.length < kVarintMax ∧ ∀ p ∈ m.params, trackParamWf p

/-- Field constraints of `AnnounceOk`. -/
@[reducible] def wfAnnounceOk (m : AnnounceOk) : Prop := strWf m.trackNamespace

/-- Field constraints of `AnnounceError`. -/
@[reducible] def wfAnnounceError (m : AnnounceError) : Prop :=
  strWf m.trackNamespace ∧ m.errorCode < kVarintMax ∧ strWf m.reasonPhrase

/-- Field constraints of `Unannounce`. -/
@[reducible] def wfUnannounce (m : Unannounce) : Prop := strWf m.trackNamespace

/-- Field constraints of `AnnounceCancel`. -/
@[reducible] def wfAnnounceCancel (m : AnnounceCancel) : Prop :=
  strWf m.trackNamespace ∧ m.errorCode < kVarintMax ∧ strWf m.reasonPhrase

/-- Field constraints of `TrackStatusRequest`. -/
@[reducible] def wfTrackStatusRequest (m : TrackStatusRequest) : Prop :=
  strWf m.fullTrackName.trackNamespace ∧ strWf m.fullTrackName.trackName

/-- Field constraints of `TrackStatus`: a valid status code, and a latest
location present when the status is `IN_PROGRESS = 0` (the writer
dereferences it). -/
@[reducible] def wfTrackStatus (m : TrackStatus) : Prop :=
  strWf m.fullTrackName.trackNamespace ∧ strWf m.fullTrackName.trackName ∧
  m.statusCode ≤ 4 ∧ (m.statusCode = 0 → m.latestGroupAndObject.isSome) ∧
  locWf (m.latestGroupAndObject.getD ⟨0, 0⟩)

/-- Field constraints of `Goaway`. -/
@[reducible] def wfGoaway (m : Goaway) : Prop := strWf m.newSessionUri

/-- The tagged union of all control messages handled by the framer. -/
inductive ControlMessage where
  | clientSetup (m : ClientSetup)
  | serverSetup (m : ServerSetup)
  | subscribeRequest (m : SubscribeRequest)
  | subscribeUpdate (m : SubscribeUpdate)
  | subscribeOk (m : SubscribeOk)
  | subscribeError (m : SubscribeError)
  | unsubscribe (m : Unsubscribe)
  | subscribeDone (m : SubscribeDone)
  | announce (m : Announce)
  | announceOk (m : AnnounceOk)
  | announceError (m : AnnounceError)
  | unannounce (m : Unannounce)
  | announceCancel (m : AnnounceCancel)
  | trackStatusRequest (m : TrackStatusRequest)
  | trackStatus (m : TrackStatus)
  | goaway (m : Goaway)
deriving DecidableEq, Repr

/-- The frame type written first by the corresponding write function. -/
def tagOf : ControlMessage → FrameType
  | .clientSetup _ => .CLIENT_SETUP
  | .serverSetup _ => .SERVER_SETUP
  | .subscribeRequest _ => .SUBSCRIBE
  | .subscribeUpdate _ => .SUBSCRIBE_UPDATE
  | .subscribeOk _ => .SUBSCRIBE_OK
  | .subscribeError _ => .SUBSCRIBE_ERROR
  | .unsubscribe _ => .UNSUBSCRIBE
  | .subscribeDone _ => .SUBSCRIBE_DONE
  | .announce _ => .ANNOUNCE
  | .announceOk _ => .ANNOUNCE_OK
  | .announceError _ => .ANNOUNCE_ERROR
  | .unannounce _ => .UNANNOUNCE
  | .announceCancel _ => .ANNOUNCE_CANCEL
  | .trackStatusRequest _ => .TRACK_STATUS_REQUEST
  | .trackStatus _ => .TRACK_STATUS
  | .goaway _ => .GOAWAY

/-- Dispatch to the write function of the message's type, on a fresh buffer. -/
def writeControl : ControlMessage → WState
  | .clientSetup m => writeClientSetup wstate0 m
  | .serverSetup m => writeServerSetup wstate0 m
  | .subscribeRequest m => writeSubscribeRequest wstate0 m
  | .subscribeUpdate m => writeSubscribeUpdate wstate0 m
  | .subscribeOk m => writeSubscribeOk wstate0 m
  | .subscribeError m => writeSubscribeError wstate0 m
  | .unsubscribe m => writeUnsubscribe wstate0 m
  | .subscribeDone m => writeSubscribeDone wstate0 m
  | .announce m => writeAnnounce wstate0 m
  | .announceOk m => writeAnnounceOk wstate0 m
  | .announceError m => writeAnnounceError wstate0 m
  | .unannounce m => writeUnannounce wstate0 m
  | .announceCancel m => writeAnnounceCancel wstate0 m
  | .trackStatusRequest m => writeTrackStatusRequest wstate0 m
  | .trackStatus m => writeTrackStatus wstate0 m
  | .goaway m => writeGoaway wstate0 m

/-- The parse function corresponding to the message's type, with its result
injected back into the union. -/
def parseOfMsg : ControlMessage → Parser ControlMessage
  | .clientSetup _ => pMap .clientSetup parseClientSetup
  | .serverSetup _ => pMap .serverSetup parseServerSetup
  | .subscribeRequest _ => pMap .subscribeRequest parseSubscribeRequest
  | .subscribeUpdate _ => pMap .subscribeUpdate parseSubscribeUpdate
  | .subscribeOk _ => pMap .subscribeOk parseSubscribeOk
  | .subscribeError _ => pMap .subscribeError parseSubscribeError
  | .unsubscribe _ => pMap .unsubscribe parseUnsubscribe
  | .subscribeDone _ => pMap .subscribeDone parseSubscribeDone
  | .announce _ => pMap .announce parseAnnounce
  | .announceOk _ => pMap .announceOk parseAnnounceOk
  | .announceError _ => pMap .announceError parseAnnounceError
  | .unannounce _ => pMap .unannounce parseUnannounce
  | .announceCancel _ => pMap .announceCancel parseAnnounceCancel
  | .trackStatusRequest _ => pMap .trackStatusRequest parseTrackStatusRequest
  | .trackStatus _ => pMap .trackStatus parseTrackStatus
  | .goaway _ => pMap .goaway parseGoaway

/-- Field constraints, dispatched over the union. -/
@[reducible] def wfControl : ControlMessage → Prop
  | .clientSetup m => wfClientSetup m
  | .serverSetup m => wfServerSetup m
  | .subscribeRequest m => wfSubscribeRequest m
  | .subscribeUpdate m => wfSubscribeUpdate m
  | .subscribeOk m => wfSubscribeOk m
  | .subscribeError m => wfSubscribeError m
  | .unsubscribe m => wfUnsubscribe m
  | .subscribeDone m => wfSubscribeDone m
  | .announce m => wfAnnounce m
  | .announceOk m => wfAnnounceOk m
  | .announceError m => wfAnnounceError m
  | .unannounce m => wfUnannounce m
  | .announceCancel m => wfAnnounceCancel m
  | .trackStatusRequest m => wfTrackStatusRequest m
  | .trackStatus m => wfTrackStatus m
  | .goaway m => wfGoaway m

/-- The bytes a write function produced after the frame-type varint. -/
def controlBody (m : ControlMessage) : List Nat :=
  (writeControl m).buf.drop (encVarint (frameTypeVal (tagOf m))).length

/-- What `parseTrackStatus` actually produces for a written `TrackStatus`:
the full track name is dropped (never assigned) and a `latest` pair is always
stored — the written one for `IN_PROGRESS`, the zero pair otherwise. -/
def trackStatusParsedVal (m : TrackStatus) : TrackStatus :=
  { fullTrackName := { trackNamespace := [], trackName := [] },
    statusCode := m.statusCode,
    latestGroupAndObject :=
      some (if m.statusCode = 0 then m.latestGroupAndObject.getD ⟨0, 0⟩ else ⟨0, 0⟩) }

/-- The parse result the source produces for a written message: the identity,
except for `parseTrackStatus` (see `trackStatusParsedVal`). -/
def expectedParse : ControlMessage → ControlMessage
  | .trackStatus m => .trackStatus (trackStatusParsedVal m)
  | m => m

/-- `MoQSession::PublishKey` (field order as declared in `MoQSession.h`). -/
structure PublishKey where
  subscribeID : Nat
  group : Nat
  pref : ForwardPreference
  object : Nat
deriving DecidableEq, Repr

/-- `PublishKey::operator==`: subscribe ID and preference must match; then
`Object`/`Datagram` compare only the object id, `Group` only the group, and
`Track` nothing further. -/
def pkEq (a b : PublishKey) : Bool :=
  if a.subscribeID ≠ b.subscribeID ∨ a.pref ≠ b.pref then false
  else if a.pref = .Object ∨ a.pref = .Datagram then a.object == b.object
  else if a.pref = .Group then a.group == b.group
  else if a.pref = .Track then true
  else false

/-- `folly::hash::hash_combine` on one argument; folly is an external
library, modelled as an injective combiner (the Cantor pairing) so that
combinations of distinct argument tuples are distinct. -/
def hashCombine1 (a : Nat) : Nat := a

/-- Two-argument combiner (Cantor pairing, injective). -/
def hashCombine2 (a b : Nat) : Nat := (a + b) * (a + b + 1) / 2 + b

/-- Three-argument combiner. -/
def hashCombine3 (a b c : Nat) : Nat := hashCombine2 (hashCombine2 a b) c

/-- `PublishKey::hash::operator()`: `Object`/`Datagram` combine
`(subscribeID, group, object)`, `Group` combines `(subscribeID, group)`,
`Track` only `subscribeID`. -/
def pkHash (ook : PublishKey) : Nat :=
  if ook.pref = .Object ∨ ook.pref = .Datagram then
    hashCombine3 ook.subscribeID ook.group ook.object
  else if ook.pref = .Group then hashCombine2 ook.subscribeID ook.group
  else hashCombine1 ook.subscribeID

/-- The tuple of fields `PublishKey::hash` feeds to `hash_combine`, as a
list — the part of the hash that is independent of the combiner. -/
def pkHashInput (ook : PublishKey) : List Nat :=
  if ook.pref = .Object ∨ ook.pref = .Datagram then
    [ook.subscribeID, ook.group, ook.object]
  else if ook.pref = .Group then [ook.subscribeID, ook.group]
  else [ook.subscribeID]

/-- Result of `ObjectSource::payload()`: the coroutine returns `nullptr`,
returns an assembled byte buffer, or suspends awaiting more queue entries. -/
inductive PayloadResult where
  | nullBuf
  | bytes (bs : List Nat)
  | pending
deriving DecidableEq, Repr

/-- The dequeue loop of `payload()`: concatenate chunks until the null
end-of-payload marker; an exhausted queue means the coroutine is suspended.
Returns the result together with the queue entries not dequeued. -/
def drainPayload : List (Option (List Nat)) → PayloadResult × List (Option (List Nat))
  | [] => (.pending, [])
  | none :: rest => (.bytes [], rest)
  | some c :: rest =>
    match drainPayload rest with
    | (.bytes acc, q) => (.bytes (c ++ acc), q)
    | r => r

/-- `MoQSession::TrackHandle::ObjectSource::payload()`: `nullptr` immediately
when the header status is not `NORMAL = 0`, otherwise drain the payload
queue. -/
def objectSourcePayload (status : Nat) (payloadQueue : List (Option (List Nat))) :
    PayloadResult × List (Option (List Nat)) :=
  if status ≠ 0 then (.nullBuf, payloadQueue) else drainPayload payloadQueue

/-- Gap report kinds of the de-jitter buffer (names as in
`DeJitter<T>::GapType`). -/
inductive GapType where
  | NO_GAP
  | GAP
  | FILLING_BUFFER
  | ARRIVED_LATE
deriving DecidableEq, Repr

/-- A gap report: kind plus size. -/
structure GapReport where
  gapType : GapType
  gapSize : Nat
deriving DecidableEq, Repr

/-- Insert into a sequence-sorted association list. -/
def insertSorted {α : Type} (seq : Nat) (item : α) :
    List (Nat × α) → List (Nat × α)
  | [] => [(seq, item)]
  | (s, x) :: rest =>
    if seq ≤ s then (seq, item) :: (s, x) :: rest
    else (s, x) :: insertSorted seq item rest

/-- Modelled from the spec: the `DeJitter<T>` state.  The implementation
(`moxygen/dejitter/DeJitter.h`) is not under src/ — only its test is — so the
buffer is modelled from §4.4 of the spec as a bounded reorder window: a
sequence-sorted store of pending items plus the last emitted sequence
number.  Where §4.4's head-anchoring prose conflicts with the spec's own
scenario S5 (and with every assertion of `DeJitterTest.cpp`), the model
follows S5: items below or at the last emitted sequence are late, everything
else is buffered, and once the window holds more than `capacity` items the
smallest sequence is emitted. -/
structure DeJitter (α : Type) where
  capacity : Nat
  buffer : List (Nat × α)
  lastEmitted : Option Nat

/-- Modelled from the spec: `DeJitter<T>::size()` — the count of occupied
slots. -/
def DeJitter.size {α : Type} (d : DeJitter α) : Nat := d.buffer.length

/-- Modelled from the spec: `DeJitter<T>::insertItem(seq, item)`.
Late items (at or below the last emitted sequence) are dropped with
`ARRIVED_LATE` and the distance to the last emission; otherwise the item is
stored, and while at most `capacity` slots are occupied the report is
`FILLING_BUFFER`.  Once the window overflows, the smallest buffered sequence
is emitted: `NO_GAP` for the very first emission or a direct successor,
otherwise `GAP` with the number of skipped sequence numbers. -/
def DeJitter.insertItem {α : Type} (d : DeJitter α) (seq : Nat) (item : α) :
    (Option α × GapReport) × DeJitter α :=
  match d.lastEmitted with
  | some e =>
    if seq ≤ e then ((none, ⟨.ARRIVED_LATE, e - seq⟩), d)
    else
      match insertSorted seq item d.buffer with
      | [] => ((none, ⟨.FILLING_BUFFER, 0⟩), d)
      | (m, it) :: rest =>
        if rest.length + 1 ≤ d.capacity then
          ((none, ⟨.FILLING_BUFFER, 0⟩), { d with buffer := (m, it) :: rest })
        else
          ((some it, if m = e + 1 then ⟨.NO_GAP, 0⟩ else ⟨.GAP, m - e - 1⟩),
           { d with buffer := rest, lastEmitted := some m })
  | none =>
    match insertSorted seq item d.buffer with
    | [] => ((none, ⟨.FILLING_BUFFER, 0⟩), d)
    | (m, it) :: rest =>
      if rest.length + 1 ≤ d.capacity then
        ((none, ⟨.FILLING_BUFFER, 0⟩), { d with buffer := (m, it) :: rest })
      else
        ((some it, ⟨.NO_GAP, 0⟩), { d with buffer := rest, lastEmitted := some m })

/-- A fresh de-jitter buffer of the given capacity. -/
def DeJitter.mk0 (α : Type) (capacity : Nat) : DeJitter α :=
  { capacity := capacity, buffer := [], lastEmitted := none }

/-- Wire bytes of a length-prefixed string. -/
def fsBytes (s : List Nat) : List Nat := encVarint s.length ++ s

/-- Wire bytes of an absolute location. -/
def locBytes (l : AbsoluteLocation) : List Nat := encVarint l.group ++ encVarint l.object

/-- Wire bytes of a full track name. -/
def ftnBytes (ftn : FullTrackName) : List Nat :=
  fsBytes ftn.trackNamespace ++ fsBytes ftn.trackName

/-- Wire bytes of a version list. -/
def versionsBytes : List Nat → List Nat
  | [] => []
  | v :: rest => encVarint v ++ versionsBytes rest

/-- Wire bytes of a setup parameter list. -/
def setupParamsBytes : List SetupParameter → List Nat
  | [] => []
  | p :: rest =>
    (encVarint p.key ++
      (if p.key = setupKeyRole then encVarint 1 ++ encVarint p.asUint64
       else fsBytes p.asString)) ++ setupParamsBytes rest

/-- Wire bytes of a track-request parameter list. -/
def trackParamsBytes : List TrackRequestParameter → List Nat
  | [] => []
  | p :: rest => (encVarint p.key ++ fsBytes p.value) ++ trackParamsBytes rest

/-- Field constraints of an `ObjectHeader` on the single-object wire
(`OBJECT_STREAM` / `OBJECT_DATAGRAM` path of `writeObject`). -/
@[reducible] def wfObjectSingle (h : ObjectHeader) : Prop :=
  (h.forwardPreference = .Object ∨ h.forwardPreference = .Datagram) ∧
  h.subscribeID < kVarintMax ∧ h.trackAlias < kVarintMax ∧ h.group < kVarintMax ∧
  h.id < kVarintMax ∧ h.priority < 256 ∧ h.status < kVarintMax

/-- Scenario S1 of the spec: `SubscribeOk{subId=7, expires=250ms,
groupOrder=OldestFirst, latest=(42,3), params=[]}`. -/
def s1SubscribeOk : SubscribeOk :=
  { subscribeID := 7, expires := 250, groupOrder := 1,
    latest := some ⟨42, 3⟩, params := [] }

/-- The spec-flaw witness for the track-status round trip: a `TrackStatus`
with a non-empty track name. -/
def tsInput : TrackStatus :=
  { fullTrackName := { trackNamespace := [97], trackName := [98] },
    statusCode := 0, latestGroupAndObject := some ⟨1, 2⟩ }

/-- Scenario S5 of the spec (the `GapOfOne` de-jitter test), step by step. -/
def s5Step1 : (Option Nat × GapReport) × DeJitter Nat :=
  (DeJitter.mk0 Nat 3).insertItem 2 2

/-- S5 after inserting `(0, 0)`. -/
def s5Step2 : (Option Nat × GapReport) × DeJitter Nat := s5Step1.2.insertItem 0 0

/-- S5 after inserting `(3, 3)`. -/
def s5Step3 : (Option Nat × GapReport) × DeJitter Nat := s5Step2.2.insertItem 3 3

/-- S5 after inserting `(4, 4)`. -/
def s5Step4 : (Option Nat × GapReport) × DeJitter Nat := s5Step3.2.insertItem 4 4

/-- S5 after inserting `(5, 5)`. -/
def s5Step5 : (Option Nat × GapReport) × DeJitter Nat := s5Step4.2.insertItem 5 5

/-- A parser behaves well on a byte chunk `c` with result `v` when it
consumes exactly `c` off any input starting with `c` (returning `v`), and
reports `PARSE_UNDERFLOW` on every strict prefix of `c`. -/
def GoodP {α : Type} (p : Parser α) (c : List Nat) (v : α) : Prop :=
  (∀ rest, p (c ++ rest) = .ok (v, rest)) ∧
  (∀ k, k < c.length → p (c.take k) = .error .PARSE_UNDERFLOW)

/-! ## Varint properties -/

/-- The encoding of a representable value is non-empty, its first byte
announces its exact length, and `vDecode` recovers the value. -/
theorem encVarint_shape (n : Nat) (h : n < kVarintMax) :
    ∃ b t, encVarint n = b :: t ∧ varintWidth b = t.length + 1 ∧ vDecode (b :: t) = n := by
  rw [kVarintMax] at h
  unfold encVarint
  split_ifs with h1 h2 h3
  · refine ⟨n, [], rfl, ?_, ?_⟩
    · unfold varintWidth
      rw [if_pos h1]
      simp
    · simp only [vDecode, List.foldl]
      omega
  · refine ⟨64 + n / 256, [n % 256], rfl, ?_, ?_⟩
    · unfold varintWidth
      rw [if_neg (by omega), if_pos (by omega)]
      simp
    · simp only [vDecode, List.foldl]
      omega
  · refine ⟨128 + n / 16777216, [n / 65536 % 256, n / 256 % 256, n % 256], rfl, ?_, ?_⟩
    · unfold varintWidth
      rw [if_neg (by omega), if_neg (by omega), if_pos (by omega)]
      simp
    · simp only [vDecode, List.foldl]
      omega
  · refine ⟨192 + n / 72057594037927936,
      [n / 281474976710656 % 256, n / 1099511627776 % 256, n / 4294967296 % 256,
       n / 16777216 % 256, n / 65536 % 256, n / 256 % 256, n % 256], rfl, ?_, ?_⟩
    · unfold varintWidth
      rw [if_neg (by omega), if_neg (by omega), if_neg (by omega)]
      simp
    · simp only [vDecode, List.foldl]
      omega

/-- Decoding a shortest-form encoding recovers the value and consumes
nothing further. -/
theorem decode_encVarint (n : Nat) (h : n < kVarintMax) (rest : List Nat) :
    decodeQuicInteger (encVarint n ++ rest) = some (n, rest) := by
  obtain ⟨b, t, he, hw, hv⟩ := encVarint_shape n h
  rw [he, List.cons_append]
  simp only [decodeQuicInteger, hw]
  rw [if_neg (by simp only [List.length_append]; omega)]
  simp only [Nat.add_sub_cancel, List.take_left, List.drop_left, hv]

/-- Decoding any strict prefix of an encoding fails. -/
theorem decode_encVarint_take (n k : Nat) (h : n < kVarintMax)
    (hk : k < (encVarint n).length) :
    decodeQuicInteger ((encVarint n).take k) = none := by
  obtain ⟨b, t, he, hw, -⟩ := encVarint_shape n h
  rw [he] at hk ⊢
  cases k with
  | zero => simp [decodeQuicInteger]
  | succ j =>
    simp only [List.take_succ_cons]
    simp only [decodeQuicInteger, hw]
    rw [if_pos]
    simp only [List.length_cons] at hk
    simp only [List.length_take]
    omega

/-! ## The parser well-behavedness framework -/

/-- Sequencing preserves well-behavedness, concatenating the consumed
chunks. -/
theorem goodP_bind {α β : Type} {p : Parser α} {f : α → Parser β}
    {c d : List Nat} {a : α} {b : β}
    (hp : GoodP p c a) (hf : GoodP (f a) d b) : GoodP (pBind p f) (c ++ d) b := by
  constructor
  · intro rest
    have h1 := hp.1 (d ++ rest)
    rw [List.append_assoc]
    simp only [pBind, h1]
    exact hf.1 rest
  · intro k hk
    rw [List.length_append] at hk
    rcases Nat.lt_or_ge k c.length with h | h
    · rw [List.take_append_eq_append_take, (by omega : k - c.length = 0),
        List.take_zero, List.append_nil]
      simp only [pBind, hp.2 k h]
    · rw [List.take_append_eq_append_take,
        List.take_of_length_le (by omega : c.length ≤ k)]
      simp only [pBind, hp.1]
      exact hf.2 (k - c.length) (by omega)

/-- `pPure` consumes nothing. -/
theorem goodP_pure {α : Type} (a : α) : GoodP (pPure a) [] a := by
  constructor
  · intro rest
    rfl
  · intro k hk
    simp at hk

/-- `pPure` of a value equal to the target. -/
theorem goodP_pure_eq {α : Type} {v w : α} (h : v = w) : GoodP (pPure v) [] w := by
  rw [h]
  exact goodP_pure w

/-- Transport along equalities of chunk and value. -/
theorem goodP_congr {α : Type} {p : Parser α} {c c' : List Nat} {v v' : α}
    (hc : c = c') (hv : v = v') (h : GoodP p c v) : GoodP p c' v' := by
  rw [← hc, ← hv]
  exact h

/-- A conditional parser whose condition is false. -/
theorem goodP_ite_false {α : Type} {cond : Prop} [Decidable cond] (hc : ¬cond)
    {p q : Parser α} {bs : List Nat} {v : α} (h : GoodP q bs v) :
    GoodP (if cond then p else q) bs v := by
  rw [if_neg hc]
  exact h

/-- A conditional parser whose condition is true. -/
theorem goodP_ite_true {α : Type} {cond : Prop} [Decidable cond] (hc : cond)
    {p q : Parser α} {bs : List Nat} {v : α} (h : GoodP p bs v) :
    GoodP (if cond then p else q) bs v := by
  rw [if_pos hc]
  exact h

/-- Mapping preserves well-behavedness. -/
theorem goodP_map {α β : Type} {f : α → β} {p : Parser α} {c : List Nat} {v : α}
    (h : GoodP p c v) : GoodP (pMap f p) c (f v) :=
  goodP_congr (List.append_nil c) rfl (goodP_bind h (goodP_pure (f v)))

/-- `pVarint` is well-behaved on any shortest-form encoding. -/
theorem goodP_varint (n : Nat) (h : n < kVarintMax) :
    GoodP pVarint (encVarint n) n := by
  constructor
  · intro rest
    simp only [pVarint, decode_encVarint n h rest]
  · intro k hk
    simp only [pVarint, decode_encVarint_take n k h hk]

/-- `pByte` is well-behaved on a single byte. -/
theorem goodP_byte (b : Nat) : GoodP pByte [b] b := by
  constructor
  · intro rest
    rfl
  · intro k hk
    simp only [List.length_cons, List.length_nil] at hk
    interval_cases k
    rfl

/-- `pByte2` is well-behaved on two bytes. -/
theorem goodP_byte2 (b1 b2 : Nat) : GoodP pByte2 [b1, b2] (b1, b2) := by
  constructor
  · intro rest
    rfl
  · intro k hk
    simp only [List.length_cons, List.length_nil] at hk
    interval_cases k
    · rfl
    · rfl

/-- `parseFixedString` is well-behaved on a length-prefixed string. -/
theorem goodP_fixedString (s : List Nat) (h : strWf s) :
    GoodP parseFixedString (fsBytes s) s := by
  rw [strWf] at h
  constructor
  · intro rest
    simp only [fsBytes, List.append_assoc, parseFixedString, decode_encVarint s.length h]
    rw [if_pos (by simp)]
    simp [List.take_left, List.drop_left]
  · intro k hk
    simp only [fsBytes, List.length_append] at hk
    rcases Nat.lt_or_ge k (encVarint s.length).length with hlt | hge
    · rw [fsBytes, List.take_append_eq_append_take, (by omega : k - (encVarint s.length).length = 0),
        List.take_zero, List.append_nil]
      simp only [parseFixedString, decode_encVarint_take s.length k h hlt]
    · rw [fsBytes, List.take_append_eq_append_take,
        List.take_of_length_le (by omega : (encVarint s.length).length ≤ k)]
      simp only [parseFixedString, decode_encVarint s.length h]
      rw [if_neg]
      simp only [List.length_take]
      omega

/-- `pVarintAtMost 1` accepts a one-byte encoding. -/
theorem goodP_varintAtMost1 (n : Nat) (h : n < 64) :
    GoodP (pVarintAtMost 1) (encVarint n) n := by
  have he : encVarint n = [n] := by
    unfold encVarint
    rw [if_pos h]
  rw [he]
  constructor
  · intro rest
    simp only [pVarintAtMost, List.cons_append, decodeQuicIntegerAtMost]
    rw [if_neg (by unfold varintWidth; rw [if_pos h]; omega)]
    have : decodeQuicInteger (encVarint n ++ rest) = some (n, rest) :=
      decode_encVarint n (by rw [kVarintMax]; omega) rest
    rw [he] at this
    simp only [List.cons_append] at this
    rw [this]
  · intro k hk
    simp only [List.length_cons, List.length_nil] at hk
    interval_cases k
    rfl

/-- `parseAbsoluteLocation` is well-behaved on two varints. -/
theorem goodP_absoluteLocation (l : AbsoluteLocation) (h : locWf l) :
    GoodP parseAbsoluteLocation (locBytes l) l :=
  goodP_congr (by rw [locBytes, List.append_nil]) rfl
    (goodP_bind (goodP_varint l.group h.1)
      (goodP_bind (goodP_varint l.object h.2) (goodP_pure_eq rfl)))

/-- `parseFullTrackName` is well-behaved on two strings. -/
theorem goodP_fullTrackName (ftn : FullTrackName)
    (h1 : strWf ftn.trackNamespace) (h2 : strWf ftn.trackName) :
    GoodP parseFullTrackName (ftnBytes ftn) ftn :=
  goodP_congr (by rw [ftnBytes, List.append_nil]) rfl
    (goodP_bind (goodP_fixedString ftn.trackNamespace h1)
      (goodP_bind (goodP_fixedString ftn.trackName h2) (goodP_pure_eq rfl)))

/-- Consuming a well-behaved prefix under `pBind`. -/
theorem pBind_consume {α β : Type} {p : Parser α} {f : α → Parser β}
    {c : List Nat} {a : α} (hp : GoodP p c a) (rest : List Nat) :
    pBind p f (c ++ rest) = f a rest := by
  simp only [pBind, hp.1]

/-- The version loop parses back what the version loop writes. -/
theorem goodP_versions (vs : List Nat) :
    (∀ v ∈ vs, v < kVarintMax) →
    GoodP (parseVersions vs.length) (versionsBytes vs) vs := by
  induction vs with
  | nil =>
    intro _
    exact goodP_pure []
  | cons v vs ih =>
    intro h
    have hv := h v (by simp)
    have hrest : ∀ x ∈ vs, x < kVarintMax := fun x hx => h x (by simp [hx])
    exact goodP_congr (by simp [versionsBytes]) rfl
      (goodP_bind (goodP_varint v hv) (goodP_bind (ih hrest) (goodP_pure_eq rfl)))

/-- The track-request-parameter loop parses back its wire bytes. -/
theorem goodP_trackParams (ps : List TrackRequestParameter) :
    (∀ p ∈ ps, trackParamWf p) →
    GoodP (parseTrackRequestParams ps.length) (trackParamsBytes ps) ps := by
  induction ps with
  | nil =>
    intro _
    exact goodP_pure []
  | cons p ps ih =>
    intro h
    have hp := h p (by simp)
    have hrest : ∀ x ∈ ps, trackParamWf x := fun x hx => h x (by simp [hx])
    exact goodP_congr (by simp [trackParamsBytes, List.append_assoc]) rfl
      (goodP_bind (goodP_varint p.key hp.1)
        (goodP_bind (goodP_fixedString p.value hp.2)
          (goodP_bind (ih hrest) (goodP_pure_eq rfl))))

/-- The setup-parameter loop parses back its wire bytes (role parameters via
the length-limited varint, others via the string path). -/
theorem goodP_setupParams (ps : List SetupParameter) :
    (∀ p ∈ ps, setupParamWf p) →
    GoodP (parseSetupParams ps.length) (setupParamsBytes ps) ps := by
  induction ps with
  | nil =>
    intro _
    exact goodP_pure []
  | cons p ps ih =>
    intro h
    obtain ⟨hk, hrole, hother⟩ := h p (by simp)
    have hrest : ∀ x ∈ ps, setupParamWf x := fun x hx => h x (by simp [hx])
    by_cases hkey : p.key = setupKeyRole
    · obtain ⟨hval, hstr⟩ := hrole hkey
      have hv : ({ key := p.key, asUint64 := p.asUint64, asString := [] } : SetupParameter) :: ps
          = p :: ps := by
        rw [← hstr]
      exact goodP_congr (by simp [setupParamsBytes, hkey, List.append_assoc]) hv
        (goodP_bind (goodP_varint p.key hk) (goodP_ite_true hkey
          (goodP_bind (goodP_varint 1 (by rw [kVarintMax]; omega))
            (goodP_bind (goodP_varintAtMost1 p.asUint64 (by omega))
              (goodP_bind (ih hrest) (goodP_pure_eq rfl))))))
    · obtain ⟨hval, hstr⟩ := hother hkey
      have hv : ({ key := p.key, asUint64 := 0, asString := p.asString } : SetupParameter) :: ps
          = p :: ps := by
        rw [← hval]
      exact goodP_congr (by simp [setupParamsBytes, hkey, List.append_assoc]) hv
        (goodP_bind (goodP_varint p.key hk) (goodP_ite_false hkey
          (goodP_bind (goodP_fixedString p.asString hstr)
            (goodP_bind (ih hrest) (goodP_pure_eq rfl)))))

/-! ## Write-side unfolding lemmas -/

/-- `writeVarint` on an error-free state appends the encoding and counts it. -/
theorem wv_ok (buf : List Nat) (size : Nat) (n : Nat) (h : n < kVarintMax) :
    writeVarint ⟨buf, size, false⟩ n =
      ⟨buf ++ encVarint n, size + (encVarint n).length, false⟩ := by
  have h' : n < 4611686018427387904 := by rw [kVarintMax] at h; exact h
  simp [writeVarint, encodeQuicInteger, h']

/-- `writeFixedString` on an error-free state appends length plus bytes,
counting both. -/
theorem wfs_ok (buf : List Nat) (size : Nat) (s : List Nat) (h : strWf s) :
    writeFixedString ⟨buf, size, false⟩ s =
      ⟨buf ++ fsBytes s, size + (encVarint s.length).length + s.length, false⟩ := by
  rw [writeFixedString, wv_ok _ _ _ h]
  simp [fsBytes, List.append_assoc]

/-- `writeFullTrackName` on an error-free state. -/
theorem wftn_ok (buf : List Nat) (size : Nat) (ftn : FullTrackName)
    (h1 : strWf ftn.trackNamespace) (h2 : strWf ftn.trackName) :
    writeFullTrackName ⟨buf, size, false⟩ ftn =
      ⟨buf ++ ftnBytes ftn,
       size + (encVarint ftn.trackNamespace.length).length + ftn.trackNamespace.length
            + (encVarint ftn.trackName.length).length + ftn.trackName.length, false⟩ := by
  rw [writeFullTrackName, wfs_ok _ _ _ h1, wfs_ok _ _ _ h2]
  simp [ftnBytes, List.append_assoc]

/-- `writeVersions` on an error-free state. -/
theorem writeVersions_ok (vs : List Nat) :
    (∀ v ∈ vs, v < kVarintMax) → ∀ buf size,
    writeVersions ⟨buf, size, false⟩ vs =
      ⟨buf ++ versionsBytes vs, size + (versionsBytes vs).length, false⟩ := by
  induction vs with
  | nil =>
    intro _ buf size
    simp [writeVersions, versionsBytes]
  | cons v vs ih =>
    intro h buf size
    have hv := h v (by simp)
    have hrest : ∀ x ∈ vs, x < kVarintMax := fun x hx => h x (by simp [hx])
    show writeVersions (writeVarint ⟨buf, size, false⟩ v) vs = _
    rw [wv_ok _ _ _ hv, ih hrest]
    simp [versionsBytes, List.append_assoc, Nat.add_assoc]

/-- One step of the track-parameter write loop. -/
theorem writeTrackParams_cons (st : WState) (p : TrackRequestParameter)
    (ps : List TrackRequestParameter) :
    writeTrackParams st (p :: ps) =
      writeTrackParams (writeFixedString (writeVarint st p.key) p.value) ps := rfl

/-- One step of the setup-parameter write loop. -/
theorem writeSetupParams_cons (st : WState) (p : SetupParameter)
    (ps : List SetupParameter) :
    writeSetupParams st (p :: ps) =
      writeSetupParams
        (if p.key = setupKeyRole then
          writeVarint (writeVarint (writeVarint st p.key) 1) p.asUint64
         else writeFixedString (writeVarint st p.key) p.asString) ps := rfl

/-- `writeTrackParams` on an error-free state. -/
theorem writeTrackParams_ok (ps : List TrackRequestParameter) :
    (∀ p ∈ ps, trackParamWf p) → ∀ buf size,
    writeTrackParams ⟨buf, size, false⟩ ps =
      ⟨buf ++ trackParamsBytes ps, size + (trackParamsBytes ps).length, false⟩ := by
  induction ps with
  | nil =>
    intro _ buf size
    simp [writeTrackParams, trackParamsBytes]
  | cons p ps ih =>
    intro h buf size
    obtain ⟨hk, hs⟩ := h p (by simp)
    have hrest : ∀ x ∈ ps, trackParamWf x := fun x hx => h x (by simp [hx])
    rw [writeTrackParams_cons, wv_ok _ _ _ hk, wfs_ok _ _ _ hs, ih hrest]
    simp only [trackParamsBytes, fsBytes]
    simp [WState.mk.injEq, List.append_assoc, List.length_append]
    omega

/-- `writeSetupParams` on an error-free state. -/
theorem writeSetupParams_ok (ps : List SetupParameter) :
    (∀ p ∈ ps, setupParamWf p) → ∀ buf size,
    writeSetupParams ⟨buf, size, false⟩ ps =
      ⟨buf ++ setupParamsBytes ps, size + (setupParamsBytes ps).length, false⟩ := by
  induction ps with
  | nil =>
    intro _ buf size
    simp [writeSetupParams, setupParamsBytes]
  | cons p ps ih =>
    intro h buf size
    obtain ⟨hk, hrole, hother⟩ := h p (by simp)
    have hrest : ∀ x ∈ ps, setupParamWf x := fun x hx => h x (by simp [hx])
    by_cases hkey : p.key = setupKeyRole
    · obtain ⟨hval, hstr⟩ := hrole hkey
      rw [writeSetupParams_cons, if_pos hkey, wv_ok _ _ _ hk,
        wv_ok _ _ _ (by rw [kVarintMax]; omega), wv_ok _ _ _ (by rw [kVarintMax]; omega),
        ih hrest]
      simp only [setupParamsBytes, if_pos hkey]
      simp [WState.mk.injEq, List.append_assoc, List.length_append]
      omega
    · obtain ⟨hval, hstr⟩ := hother hkey
      rw [writeSetupParams_cons, if_neg hkey, wv_ok _ _ _ hk, wfs_ok _ _ _ hstr, ih hrest]
      simp only [setupParamsBytes, if_neg hkey, fsBytes]
      simp [WState.mk.injEq, List.append_assoc, List.length_append]
      omega

/-! ## Per-message wire lemmas: the written body is parsed back well-behavedly -/

/-- `GOAWAY` wire lemma. -/
theorem goodMsg_goaway (m : Goaway) (h : wfGoaway m) :
    ∃ c, (writeGoaway wstate0 m).buf = encVarint (frameTypeVal .GOAWAY) ++ c ∧
      GoodP parseGoaway c m := by
  obtain ⟨uri⟩ := m
  have h' : strWf uri := h
  have htag : frameTypeVal FrameType.GOAWAY < kVarintMax := by decide
  refine ⟨fsBytes uri ++ [], ?_, ?_⟩
  · show (writeFixedString (writeVarint wstate0 (frameTypeVal .GOAWAY)) uri).buf = _
    rw [show wstate0 = ⟨[], 0, false⟩ from rfl, wv_ok _ _ _ htag, wfs_ok _ _ _ h']
    simp
  · exact goodP_bind (goodP_fixedString uri h') (goodP_pure_eq rfl)

/-- `UNSUBSCRIBE` wire lemma. -/
theorem goodMsg_unsubscribe (m : Unsubscribe) (h : wfUnsubscribe m) :
    ∃ c, (writeUnsubscribe wstate0 m).buf = encVarint (frameTypeVal .UNSUBSCRIBE) ++ c ∧
      GoodP parseUnsubscribe c m := by
  obtain ⟨sid⟩ := m
  have h' : sid < kVarintMax := h
  have htag : frameTypeVal FrameType.UNSUBSCRIBE < kVarintMax := by decide
  refine ⟨encVarint sid ++ [], ?_, ?_⟩
  · show (writeVarint (writeVarint wstate0 (frameTypeVal .UNSUBSCRIBE)) sid).buf = _
    rw [show wstate0 = ⟨[], 0, false⟩ from rfl, wv_ok _ _ _ htag, wv_ok _ _ _ h']
    simp
  · exact goodP_bind (goodP_varint sid h') (goodP_pure_eq rfl)

/-- `ANNOUNCE_OK` wire lemma. -/
theorem goodMsg_announceOk (m : AnnounceOk) (h : wfAnnounceOk m) :
    ∃ c, (writeAnnounceOk wstate0 m).buf = encVarint (frameTypeVal .ANNOUNCE_OK) ++ c ∧
      GoodP parseAnnounceOk c m := by
  obtain ⟨ns⟩ := m
  have h' : strWf ns := h
  have htag : frameTypeVal FrameType.ANNOUNCE_OK < kVarintMax := by decide
  refine ⟨fsBytes ns ++ [], ?_, ?_⟩
  · show (writeFixedString (writeVarint wstate0 (frameTypeVal .ANNOUNCE_OK)) ns).buf = _
    rw [show wstate0 = ⟨[], 0, false⟩ from rfl, wv_ok _ _ _ htag, wfs_ok _ _ _ h']
    simp
  · exact goodP_bind (goodP_fixedString ns h') (goodP_pure_eq rfl)

/-- `UNANNOUNCE` wire lemma. -/
theorem goodMsg_unannounce (m : Unannounce) (h : wfUnannounce m) :
    ∃ c, (writeUnannounce wstate0 m).buf = encVarint (frameTypeVal .UNANNOUNCE) ++ c ∧
      GoodP parseUnannounce c m := by
  obtain ⟨ns⟩ := m
  have h' : strWf ns := h
  have htag : frameTypeVal FrameType.UNANNOUNCE < kVarintMax := by decide
  refine ⟨fsBytes ns ++ [], ?_, ?_⟩
  · show (writeFixedString (writeVarint wstate0 (frameTypeVal .UNANNOUNCE)) ns).buf = _
    rw [show wstate0 = ⟨[], 0, false⟩ from rfl, wv_ok _ _ _ htag, wfs_ok _ _ _ h']
    simp
  · exact goodP_bind (goodP_fixedString ns h') (goodP_pure_eq rfl)

/-- `ANNOUNCE_ERROR` wire lemma. -/
theorem goodMsg_announceError (m : AnnounceError) (h : wfAnnounceError m) :
    ∃ c, (writeAnnounceError wstate0 m).buf = encVarint (frameTypeVal .ANNOUNCE_ERROR) ++ c ∧
      GoodP parseAnnounceError c m := by
  obtain ⟨ns, ec, rp⟩ := m
  obtain ⟨h1, h2, h3⟩ := h
  have htag : frameTypeVal FrameType.ANNOUNCE_ERROR < kVarintMax := by decide
  refine ⟨fsBytes ns ++ (encVarint ec ++ (fsBytes rp ++ [])), ?_, ?_⟩
  · show (writeFixedString (writeVarint (writeFixedString (writeVarint wstate0
      (frameTypeVal .ANNOUNCE_ERROR)) ns) ec) rp).buf = _
    rw [show wstate0 = ⟨[], 0, false⟩ from rfl, wv_ok _ _ _ htag, wfs_ok _ _ _ h1,
      wv_ok _ _ _ h2, wfs_ok _ _ _ h3]
    simp
  · exact goodP_bind (goodP_fixedString ns h1) (goodP_bind (goodP_varint ec h2)
      (goodP_bind (goodP_fixedString rp h3) (goodP_pure_eq rfl)))

/-- `ANNOUNCE_CANCEL` wire lemma. -/
theorem goodMsg_announceCancel (m : AnnounceCancel) (h : wfAnnounceCancel m) :
    ∃ c, (writeAnnounceCancel wstate0 m).buf = encVarint (frameTypeVal .ANNOUNCE_CANCEL) ++ c ∧
      GoodP parseAnnounceCancel c m := by
  obtain ⟨ns, ec, rp⟩ := m
  obtain ⟨h1, h2, h3⟩ := h
  have htag : frameTypeVal FrameType.ANNOUNCE_CANCEL < kVarintMax := by decide
  refine ⟨fsBytes ns ++ (encVarint ec ++ (fsBytes rp ++ [])), ?_, ?_⟩
  · show (writeFixedString (writeVarint (writeFixedString (writeVarint wstate0
      (frameTypeVal .ANNOUNCE_CANCEL)) ns) ec) rp).buf = _
    rw [show wstate0 = ⟨[], 0, false⟩ from rfl, wv_ok _ _ _ htag, wfs_ok _ _ _ h1,
      wv_ok _ _ _ h2, wfs_ok _ _ _ h3]
    simp
  · exact goodP_bind (goodP_fixedString ns h1) (goodP_bind (goodP_varint ec h2)
      (goodP_bind (goodP_fixedString rp h3) (goodP_pure_eq rfl)))

/-- `TRACK_STATUS_REQUEST` wire lemma. -/
theorem goodMsg_trackStatusRequest (m : TrackStatusRequest) (h : wfTrackStatusRequest m) :
    ∃ c, (writeTrackStatusRequest wstate0 m).buf
        = encVarint (frameTypeVal .TRACK_STATUS_REQUEST) ++ c ∧
      GoodP parseTrackStatusRequest c m := by
  obtain ⟨ftn⟩ := m
  obtain ⟨h1, h2⟩ := h
  have htag : frameTypeVal FrameType.TRACK_STATUS_REQUEST < kVarintMax := by decide
  refine ⟨ftnBytes ftn ++ [], ?_, ?_⟩
  · show (writeFullTrackName (writeVarint wstate0 (frameTypeVal .TRACK_STATUS_REQUEST)) ftn).buf = _
    rw [show wstate0 = ⟨[], 0, false⟩ from rfl, wv_ok _ _ _ htag, wftn_ok _ _ _ h1 h2]
    simp
  · exact goodP_bind (goodP_fullTrackName ftn h1 h2) (goodP_pure_eq rfl)

/-- `SUBSCRIBE_ERROR` wire lemma. -/
theorem goodMsg_subscribeError (m : SubscribeError) (h : wfSubscribeError m) :
    ∃ c, (writeSubscribeError wstate0 m).buf = encVarint (frameTypeVal .SUBSCRIBE_ERROR) ++ c ∧
      GoodP parseSubscribeError c m := by
  obtain ⟨sid, ec, rp, ra⟩ := m
  obtain ⟨h1, h2, h3, h4, h5⟩ := h
  have htag : frameTypeVal FrameType.SUBSCRIBE_ERROR < kVarintMax := by decide
  have hv : (if ec = kRetryTrackAlias then some (ra.getD 0) else none) = ra := by
    by_cases hec : ec = kRetryTrackAlias
    · rw [if_pos hec]
      rcases ra with - | a
      · simp [hec] at h4
      · rfl
    · rw [if_neg hec]
      rcases ra with - | a
      · rfl
      · simp [hec] at h4
  refine ⟨encVarint sid ++ (encVarint ec ++ (fsBytes rp ++ (encVarint (ra.getD 0) ++ []))), ?_, ?_⟩
  · show (writeVarint (writeFixedString (writeVarint (writeVarint (writeVarint wstate0
      (frameTypeVal .SUBSCRIBE_ERROR)) sid) ec) rp) (ra.getD 0)).buf = _
    rw [show wstate0 = ⟨[], 0, false⟩ from rfl, wv_ok _ _ _ htag, wv_ok _ _ _ h1,
      wv_ok _ _ _ h2, wfs_ok _ _ _ h3, wv_ok _ _ _ h5]
    simp
  · exact goodP_bind (goodP_varint sid h1) (goodP_bind (goodP_varint ec h2)
      (goodP_bind (goodP_fixedString rp h3)
        (goodP_bind (goodP_varint (ra.getD 0) h5) (goodP_pure_eq (by rw [hv])))))

/-- `appendRawByte` unfolded. -/
theorem arb_ok (buf : List Nat) (size : Nat) (e : Bool) (b : Nat) :
    appendRawByte ⟨buf, size, e⟩ b = ⟨buf ++ [b], size, e⟩ := rfl

/-- The one-byte encodings of the boolean flag values. -/
theorem encVarint_zero : encVarint 0 = [0] := rfl

/-- The one-byte encoding of `1`. -/
theorem encVarint_one : encVarint 1 = [1] := rfl

/-- `ANNOUNCE` wire lemma. -/
theorem goodMsg_announce (m : Announce) (h : wfAnnounce m) :
    ∃ c, (writeAnnounce wstate0 m).buf = encVarint (frameTypeVal .ANNOUNCE) ++ c ∧
      GoodP parseAnnounce c m := by
  obtain ⟨ns, ps⟩ := m
  obtain ⟨h1, h2, h3⟩ := h
  have htag : frameTypeVal FrameType.ANNOUNCE < kVarintMax := by decide
  refine ⟨fsBytes ns ++ (encVarint ps.length ++ (trackParamsBytes ps ++ [])), ?_, ?_⟩
  · show (writeTrackParams (writeVarint (writeFixedString (writeVarint wstate0
      (frameTypeVal .ANNOUNCE)) ns) ps.length) ps).buf = _
    rw [show wstate0 = ⟨[], 0, false⟩ from rfl, wv_ok _ _ _ htag, wfs_ok _ _ _ h1,
      wv_ok _ _ _ h2]
    rw [writeTrackParams_ok ps h3 _ _]
    simp
  · exact goodP_bind (goodP_fixedString ns h1) (goodP_bind (goodP_varint ps.length h2)
      (goodP_bind (goodP_trackParams ps h3) (goodP_pure_eq rfl)))

/-- `SERVER_SETUP` wire lemma. -/
theorem goodMsg_serverSetup (m : ServerSetup) (h : wfServerSetup m) :
    ∃ c, (writeServerSetup wstate0 m).buf = encVarint (frameTypeVal .SERVER_SETUP) ++ c ∧
      GoodP parseServerSetup c m := by
  obtain ⟨ver, ps⟩ := m
  obtain ⟨h1, h2, h3⟩ := h
  have htag : frameTypeVal FrameType.SERVER_SETUP < kVarintMax := by decide
  refine ⟨encVarint ver ++ (encVarint ps.length ++ (setupParamsBytes ps ++ [])), ?_, ?_⟩
  · show (writeSetupParams (writeVarint (writeVarint (writeVarint wstate0
      (frameTypeVal .SERVER_SETUP)) ver) ps.length) ps).buf = _
    rw [show wstate0 = ⟨[], 0, false⟩ from rfl, wv_ok _ _ _ htag, wv_ok _ _ _ h1,
      wv_ok _ _ _ h2]
    rw [writeSetupParams_ok ps h3 _ _]
    simp
  · exact goodP_bind (goodP_varint ver h1) (goodP_bind (goodP_varint ps.length h2)
      (goodP_bind (goodP_setupParams ps h3) (goodP_pure_eq rfl)))

/-- `CLIENT_SETUP` wire lemma. -/
theorem goodMsg_clientSetup (m : ClientSetup) (h : wfClientSetup m) :
    ∃ c, (writeClientSetup wstate0 m).buf = encVarint (frameTypeVal .CLIENT_SETUP) ++ c ∧
      GoodP parseClientSetup c m := by
  obtain ⟨vs, ps⟩ := m
  obtain ⟨h1, h2, h3, h4⟩ := h
  have htag : frameTypeVal FrameType.CLIENT_SETUP < kVarintMax := by decide
  refine ⟨encVarint vs.length ++ (versionsBytes vs ++ (encVarint ps.length ++
    (setupParamsBytes ps ++ []))), ?_, ?_⟩
  · show (writeSetupParams (writeVarint (writeVersions (writeVarint (writeVarint wstate0
      (frameTypeVal .CLIENT_SETUP)) vs.length) vs) ps.length) ps).buf = _
    rw [show wstate0 = ⟨[], 0, false⟩ from rfl, wv_ok _ _ _ htag, wv_ok _ _ _ h1,
      writeVersions_ok vs h2 _ _, wv_ok _ _ _ h3]
    rw [writeSetupParams_ok ps h4 _ _]
    simp
  · exact goodP_bind (goodP_varint vs.length h1) (goodP_bind (goodP_versions vs h2)
      (goodP_bind (goodP_varint ps.length h3)
        (goodP_bind (goodP_setupParams ps h4) (goodP_pure_eq rfl))))

/-- `SUBSCRIBE_DONE` wire lemma. -/
theorem goodMsg_subscribeDone (m : SubscribeDone) (h : wfSubscribeDone m) :
    ∃ c, (writeSubscribeDone wstate0 m).buf = encVarint (frameTypeVal .SUBSCRIBE_DONE) ++ c ∧
      GoodP parseSubscribeDone c m := by
  obtain ⟨sid, sc, rp, fin⟩ := m
  obtain ⟨h1, h2, h3, h4⟩ := h
  have htag : frameTypeVal FrameType.SUBSCRIBE_DONE < kVarintMax := by decide
  rcases fin with - | final
  · refine ⟨encVarint sid ++ (encVarint sc ++ (fsBytes rp ++ ([0] ++ ([] ++ [])))), ?_, ?_⟩
    · show (writeVarint (writeFixedString (writeVarint (writeVarint (writeVarint wstate0
        (frameTypeVal .SUBSCRIBE_DONE)) sid) sc) rp) 0).buf = _
      rw [show wstate0 = ⟨[], 0, false⟩ from rfl, wv_ok _ _ _ htag, wv_ok _ _ _ h1,
        wv_ok _ _ _ h2, wfs_ok _ _ _ h3, wv_ok _ _ _ (by decide), encVarint_zero]
      simp
    · exact goodP_bind (goodP_varint sid h1) (goodP_bind (goodP_varint sc h2)
        (goodP_bind (goodP_fixedString rp h3) (goodP_bind (goodP_byte 0)
          (goodP_bind (goodP_ite_false (by simp) (goodP_pure none)) (goodP_pure_eq rfl)))))
  · have hfin : locWf final := h4
    refine ⟨encVarint sid ++ (encVarint sc ++ (fsBytes rp ++ ([1] ++ (locBytes final ++ [])))),
      ?_, ?_⟩
    · show (writeVarint (writeVarint (writeVarint (writeFixedString (writeVarint (writeVarint
        (writeVarint wstate0 (frameTypeVal .SUBSCRIBE_DONE)) sid) sc) rp) 1)
        final.group) final.object).buf = _
      rw [show wstate0 = ⟨[], 0, false⟩ from rfl, wv_ok _ _ _ htag, wv_ok _ _ _ h1,
        wv_ok _ _ _ h2, wfs_ok _ _ _ h3, wv_ok _ _ _ (by decide), wv_ok _ _ _ hfin.1,
        wv_ok _ _ _ hfin.2, encVarint_one]
      simp [locBytes]
    · exact goodP_bind (goodP_varint sid h1) (goodP_bind (goodP_varint sc h2)
        (goodP_bind (goodP_fixedString rp h3) (goodP_bind (goodP_byte 1)
          (goodP_bind (goodP_ite_true (by simp) (goodP_map (goodP_absoluteLocation final hfin)))
            (goodP_pure_eq rfl)))))

/-- `SUBSCRIBE_UPDATE` wire lemma. -/
theorem goodMsg_subscribeUpdate (m : SubscribeUpdate) (h : wfSubscribeUpdate m) :
    ∃ c, (writeSubscribeUpdate wstate0 m).buf = encVarint (frameTypeVal .SUBSCRIBE_UPDATE) ++ c ∧
      GoodP parseSubscribeUpdate c m := by
  obtain ⟨sid, start, endLoc, prio, ps⟩ := m
  obtain ⟨h1, h2, h3, h4, h5, h6⟩ := h
  have htag : frameTypeVal FrameType.SUBSCRIBE_UPDATE < kVarintMax := by decide
  refine ⟨encVarint sid ++ (locBytes start ++ (locBytes endLoc ++ ([prio] ++
    (encVarint ps.length ++ (trackParamsBytes ps ++ []))))), ?_, ?_⟩
  · show (writeTrackParams (writeVarint (appendRawByte (writeVarint (writeVarint (writeVarint
      (writeVarint (writeVarint (writeVarint wstate0 (frameTypeVal .SUBSCRIBE_UPDATE)) sid)
      start.group) start.object) endLoc.group) endLoc.object) prio) ps.length) ps).buf = _
    rw [show wstate0 = ⟨[], 0, false⟩ from rfl, wv_ok _ _ _ htag, wv_ok _ _ _ h1,
      wv_ok _ _ _ h2.1, wv_ok _ _ _ h2.2, wv_ok _ _ _ h3.1, wv_ok _ _ _ h3.2, arb_ok,
      wv_ok _ _ _ h5]
    rw [writeTrackParams_ok ps h6 _ _]
    simp [locBytes]
  · exact goodP_bind (goodP_varint sid h1) (goodP_bind (goodP_absoluteLocation start h2)
      (goodP_bind (goodP_absoluteLocation endLoc h3) (goodP_bind (goodP_byte prio)
        (goodP_bind (goodP_varint ps.length h5)
          (goodP_bind (goodP_trackParams ps h6) (goodP_pure_eq rfl))))))

/-- `SUBSCRIBE_OK` wire lemma. -/
theorem goodMsg_subscribeOk (m : SubscribeOk) (h : wfSubscribeOk m) :
    ∃ c, (writeSubscribeOk wstate0 m).buf = encVarint (frameTypeVal .SUBSCRIBE_OK) ++ c ∧
      GoodP parseSubscribeOk c m := by
  obtain ⟨sid, exp, go, latest, ps⟩ := m
  obtain ⟨h1, h2, h3, h4, h5, h6⟩ := h
  have htag : frameTypeVal FrameType.SUBSCRIBE_OK < kVarintMax := by decide
  have hgo : ¬((go, (1 : Nat)).1 = 0 ∨ 2 < (go, (1 : Nat)).1) := by
    rcases h3 with rfl | rfl <;> decide
  have hgo0 : ¬((go, (0 : Nat)).1 = 0 ∨ 2 < (go, (0 : Nat)).1) := by
    rcases h3 with rfl | rfl <;> decide
  rcases latest with - | l
  · refine ⟨encVarint sid ++ (encVarint exp ++ ([go, 0] ++ ([] ++ (encVarint ps.length ++
      (trackParamsBytes ps ++ []))))), ?_, ?_⟩
    · show (writeTrackParams (writeVarint (writeVarint (appendRawByte (writeVarint (writeVarint
        (writeVarint wstate0 (frameTypeVal .SUBSCRIBE_OK)) sid) exp) go) 0) ps.length) ps).buf = _
      rw [show wstate0 = ⟨[], 0, false⟩ from rfl, wv_ok _ _ _ htag, wv_ok _ _ _ h1,
        wv_ok _ _ _ h2, arb_ok, wv_ok _ _ _ (by decide), wv_ok _ _ _ h5, encVarint_zero]
      rw [writeTrackParams_ok ps h6 _ _]
      simp
    · exact goodP_bind (goodP_varint sid h1) (goodP_bind (goodP_varint exp h2)
        (goodP_bind (goodP_byte2 go 0) (goodP_ite_false hgo0
          (goodP_bind (goodP_ite_false (by simp) (goodP_pure none))
            (goodP_bind (goodP_varint ps.length h5)
              (goodP_bind (goodP_trackParams ps h6) (goodP_pure_eq rfl)))))))
  · have hl : locWf l := h4
    refine ⟨encVarint sid ++ (encVarint exp ++ ([go, 1] ++ (locBytes l ++
      (encVarint ps.length ++ (trackParamsBytes ps ++ []))))), ?_, ?_⟩
    · show (writeTrackParams (writeVarint (writeVarint (writeVarint (writeVarint (appendRawByte
        (writeVarint (writeVarint (writeVarint wstate0 (frameTypeVal .SUBSCRIBE_OK)) sid) exp)
        go) 1) l.group) l.object) ps.length) ps).buf = _
      rw [show wstate0 = ⟨[], 0, false⟩ from rfl, wv_ok _ _ _ htag, wv_ok _ _ _ h1,
        wv_ok _ _ _ h2, arb_ok, wv_ok _ _ _ (by decide), wv_ok _ _ _ hl.1, wv_ok _ _ _ hl.2,
        wv_ok _ _ _ h5, encVarint_one]
      rw [writeTrackParams_ok ps h6 _ _]
      simp [locBytes]
    · exact goodP_bind (goodP_varint sid h1) (goodP_bind (goodP_varint exp h2)
        (goodP_bind (goodP_byte2 go 1) (goodP_ite_false hgo
          (goodP_bind (goodP_ite_true (by simp) (goodP_map (goodP_absoluteLocation l hl)))
            (goodP_bind (goodP_varint ps.length h5)
              (goodP_bind (goodP_trackParams ps h6) (goodP_pure_eq rfl)))))))

/-- `TRACK_STATUS` wire lemma: the written body parses back to
`trackStatusParsedVal` (not to the original message — the parser drops the
track name). -/
theorem goodMsg_trackStatus (m : TrackStatus) (h : wfTrackStatus m) :
    ∃ c, (writeTrackStatus wstate0 m).buf = encVarint (frameTypeVal .TRACK_STATUS) ++ c ∧
      GoodP parseTrackStatus c (trackStatusParsedVal m) := by
  obtain ⟨ftn, sc, latest⟩ := m
  obtain ⟨h1, h2, h3, h4, h5⟩ := h
  have h3' : sc ≤ 4 := h3
  have htag : frameTypeVal FrameType.TRACK_STATUS < kVarintMax := by decide
  by_cases hsc : sc = 0
  · subst hsc
    obtain ⟨l, rfl⟩ := Option.isSome_iff_exists.mp (h4 rfl)
    have hl : locWf l := h5
    refine ⟨ftnBytes ftn ++ (encVarint 0 ++ (locBytes l ++ [])), ?_, ?_⟩
    · show (writeVarint (writeVarint (writeVarint (writeFullTrackName (writeVarint wstate0
        (frameTypeVal .TRACK_STATUS)) ftn) 0) l.group) l.object).buf = _
      rw [show wstate0 = ⟨[], 0, false⟩ from rfl, wv_ok _ _ _ htag, wftn_ok _ _ _ h1 h2,
        wv_ok _ _ _ (by decide), wv_ok _ _ _ hl.1, wv_ok _ _ _ hl.2]
      simp [locBytes]
    · refine goodP_bind (goodP_fullTrackName ftn h1 h2) (goodP_bind (goodP_varint 0 (by decide))
        (goodP_ite_false (by decide)
          (goodP_bind (goodP_absoluteLocation l hl) (goodP_pure_eq ?_))))
      simp [trackStatusParsedVal]
  · refine ⟨ftnBytes ftn ++ (encVarint sc ++ (locBytes ⟨0, 0⟩ ++ [])), ?_, ?_⟩
    · simp only [writeTrackStatus]
      rw [if_neg hsc, show wstate0 = ⟨[], 0, false⟩ from rfl, wv_ok _ _ _ htag,
        wftn_ok _ _ _ h1 h2, wv_ok _ _ _ (by rw [kVarintMax]; omega),
        wv_ok _ _ _ (by decide), wv_ok _ _ _ (by decide)]
      simp [locBytes]
    · refine goodP_bind (goodP_fullTrackName ftn h1 h2)
        (goodP_bind (goodP_varint sc (by rw [kVarintMax]; omega))
          (goodP_ite_false (by omega)
            (goodP_bind (goodP_absoluteLocation ⟨0, 0⟩ (by constructor <;> decide))
              (goodP_pure_eq ?_))))
      simp [trackStatusParsedVal, hsc]

/-- `SUBSCRIBE` wire lemma. -/
theorem goodMsg_subscribeRequest (m : SubscribeRequest) (h : wfSubscribeRequest m) :
    ∃ c, (writeSubscribeRequest wstate0 m).buf = encVarint (frameTypeVal .SUBSCRIBE) ++ c ∧
      GoodP parseSubscribeRequest c m := by
  obtain ⟨sid, ta, ftn, prio, go, lt, start, endLoc, ps⟩ := m
  obtain ⟨h1, h2, h3, h4, h5, h6, h7, h8, h9, h10, h11, h12, h13⟩ := h
  have h6' : go ≤ 2 := h6
  have h7' : lt ≤ 4 := h7
  have h8c : start.isSome ↔ (lt = 3 ∨ lt = 4) := h8
  have h9c : endLoc.isSome ↔ lt = 4 := h9
  have hgo : ¬(2 < go) := by omega
  have htag : frameTypeVal FrameType.SUBSCRIBE < kVarintMax := by decide
  by_cases hl4 : lt = 4
  · subst hl4
    obtain ⟨s, rfl⟩ := Option.isSome_iff_exists.mp (h8c.mpr (by decide))
    obtain ⟨e, rfl⟩ := Option.isSome_iff_exists.mp (h9c.mpr rfl)
    have hs : locWf s := h10
    have he : locWf e := h11
    refine ⟨encVarint sid ++ (encVarint ta ++ (ftnBytes ftn ++ ([prio, go] ++ (encVarint 4 ++
      (locBytes s ++ (locBytes e ++ (encVarint ps.length ++ (trackParamsBytes ps ++ [])))))))),
      ?_, ?_⟩
    · show (writeTrackParams (writeVarint (writeVarint (writeVarint (writeVarint (writeVarint
        (writeVarint (appendRawByte (appendRawByte (writeFullTrackName (writeVarint (writeVarint
        (writeVarint wstate0 (frameTypeVal .SUBSCRIBE)) sid) ta) ftn) prio) go) 4) s.group)
        s.object) e.group) e.object) ps.length) ps).buf = _
      rw [show wstate0 = ⟨[], 0, false⟩ from rfl, wv_ok _ _ _ htag, wv_ok _ _ _ h1,
        wv_ok _ _ _ h2, wftn_ok _ _ _ h3 h4, arb_ok, arb_ok, wv_ok _ _ _ (by decide),
        wv_ok _ _ _ hs.1, wv_ok _ _ _ hs.2, wv_ok _ _ _ he.1, wv_ok _ _ _ he.2,
        wv_ok _ _ _ h12]
      rw [writeTrackParams_ok ps h13 _ _]
      simp [locBytes]
    · exact goodP_bind (goodP_varint sid h1) (goodP_bind (goodP_varint ta h2)
        (goodP_bind (goodP_fullTrackName ftn h3 h4) (goodP_bind (goodP_byte2 prio go)
          (goodP_ite_false hgo (goodP_bind (goodP_varint 4 (by decide))
            (goodP_ite_false (by decide)
              (goodP_bind (goodP_ite_true (by decide) (goodP_map (goodP_absoluteLocation s hs)))
                (goodP_bind (goodP_ite_true rfl (goodP_map (goodP_absoluteLocation e he)))
                  (goodP_bind (goodP_varint ps.length h12)
                    (goodP_bind (goodP_trackParams ps h13) (goodP_pure_eq rfl)))))))))))
  · by_cases hl3 : lt = 3
    · subst hl3
      obtain ⟨s, rfl⟩ := Option.isSome_iff_exists.mp (h8c.mpr (by decide))
      have hs : locWf s := h10
      rcases endLoc with - | e
      · refine ⟨encVarint sid ++ (encVarint ta ++ (ftnBytes ftn ++ ([prio, go] ++ (encVarint 3 ++
          (locBytes s ++ ([] ++ (encVarint ps.length ++ (trackParamsBytes ps ++ [])))))))),
          ?_, ?_⟩
        · show (writeTrackParams (writeVarint (writeVarint (writeVarint (writeVarint
            (appendRawByte (appendRawByte (writeFullTrackName (writeVarint (writeVarint
            (writeVarint wstate0 (frameTypeVal .SUBSCRIBE)) sid) ta) ftn) prio) go) 3) s.group)
            s.object) ps.length) ps).buf = _
          rw [show wstate0 = ⟨[], 0, false⟩ from rfl, wv_ok _ _ _ htag, wv_ok _ _ _ h1,
            wv_ok _ _ _ h2, wftn_ok _ _ _ h3 h4, arb_ok, arb_ok, wv_ok _ _ _ (by decide),
            wv_ok _ _ _ hs.1, wv_ok _ _ _ hs.2, wv_ok _ _ _ h12]
          rw [writeTrackParams_ok ps h13 _ _]
          simp [locBytes]
        · exact goodP_bind (goodP_varint sid h1) (goodP_bind (goodP_varint ta h2)
            (goodP_bind (goodP_fullTrackName ftn h3 h4) (goodP_bind (goodP_byte2 prio go)
              (goodP_ite_false hgo (goodP_bind (goodP_varint 3 (by decide))
                (goodP_ite_false (by decide)
                  (goodP_bind
                    (goodP_ite_true (by decide) (goodP_map (goodP_absoluteLocation s hs)))
                    (goodP_bind (goodP_ite_false (by decide) (goodP_pure none))
                      (goodP_bind (goodP_varint ps.length h12)
                        (goodP_bind (goodP_trackParams ps h13) (goodP_pure_eq rfl)))))))))))
      · exact absurd (h9c.mp rfl) (by decide)
    · have hor : ¬(lt = 3 ∨ lt = 4) := not_or.mpr ⟨hl3, hl4⟩
      rcases start with - | s
      swap
      · exact absurd (h8c.mp rfl) hor
      rcases endLoc with - | e
      swap
      · exact absurd (h9c.mp rfl) hl4
      refine ⟨encVarint sid ++ (encVarint ta ++ (ftnBytes ftn ++ ([prio, go] ++ (encVarint lt ++
        ([] ++ ([] ++ (encVarint ps.length ++ (trackParamsBytes ps ++ [])))))))), ?_, ?_⟩
      · simp only [writeSubscribeRequest]
        rw [if_neg hor, if_neg hl4, show wstate0 = ⟨[], 0, false⟩ from rfl, wv_ok _ _ _ htag,
          wv_ok _ _ _ h1, wv_ok _ _ _ h2, wftn_ok _ _ _ h3 h4, arb_ok, arb_ok,
          wv_ok _ _ _ (by rw [kVarintMax]; omega), wv_ok _ _ _ h12]
        rw [writeTrackParams_ok ps h13 _ _]
        simp
      · exact goodP_bind (goodP_varint sid h1) (goodP_bind (goodP_varint ta h2)
          (goodP_bind (goodP_fullTrackName ftn h3 h4) (goodP_bind (goodP_byte2 prio go)
            (goodP_ite_false hgo
              (goodP_bind (goodP_varint lt (by rw [kVarintMax]; omega))
                (goodP_ite_false (by omega)
                  (goodP_bind (goodP_ite_false hor (goodP_pure none))
                    (goodP_bind (goodP_ite_false hl4 (goodP_pure none))
                      (goodP_bind (goodP_varint ps.length h12)
                        (goodP_bind (goodP_trackParams ps h13) (goodP_pure_eq rfl)))))))))))

/-! ## Claim theorems -/

/-- C5: the parser never over-reads — for every well-formed control message,
parsing any strict prefix of the bytes its write function produced after the
frame-type varint returns `PARSE_UNDERFLOW`, never a partial message. -/
theorem c5_parser_never_overreads (m : ControlMessage) (h : wfControl m) :
    ∀ k, k < (controlBody m).length →
      parseOfMsg m ((controlBody m).take k) = Except.error ErrorCode.PARSE_UNDERFLOW := by
  cases m with
  | clientSetup msg =>
    obtain ⟨c, hbuf, hg⟩ := goodMsg_clientSetup msg h
    have hbody : controlBody (.clientSetup msg) = c := by
      show ((writeClientSetup wstate0 msg).buf).drop (encVarint (frameTypeVal .CLIENT_SETUP)).length = c
      rw [hbuf, List.drop_left]
    rw [hbody]
    exact (goodP_map hg).2
  | serverSetup msg =>
    obtain ⟨c, hbuf, hg⟩ := goodMsg_serverSetup msg h
    have hbody : controlBody (.serverSetup msg) = c := by
      show ((writeServerSetup wstate0 msg).buf).drop (encVarint (frameTypeVal .SERVER_SETUP)).length = c
      rw [hbuf, List.drop_left]
    rw [hbody]
    exact (goodP_map hg).2
  | subscribeRequest msg =>
    obtain ⟨c, hbuf, hg⟩ := goodMsg_subscribeRequest msg h
    have hbody : controlBody (.subscribeRequest msg) = c := by
      show ((writeSubscribeRequest wstate0 msg).buf).drop (encVarint (frameTypeVal .SUBSCRIBE)).length = c
      rw [hbuf, List.drop_left]
    rw [hbody]
    exact (goodP_map hg).2
  | subscribeUpdate msg =>
    obtain ⟨c, hbuf, hg⟩ := goodMsg_subscribeUpdate msg h
    have hbody : controlBody (.subscribeUpdate msg) = c := by
      show ((writeSubscribeUpdate wstate0 msg).buf).drop (encVarint (frameTypeVal .SUBSCRIBE_UPDATE)).length = c
      rw [hbuf, List.drop_left]
    rw [hbody]
    exact (goodP_map hg).2
  | subscribeOk msg =>
    obtain ⟨c, hbuf, hg⟩ := goodMsg_subscribeOk msg h
    have hbody : controlBody (.subscribeOk msg) = c := by
      show ((writeSubscribeOk wstate0 msg).buf).drop (encVarint (frameTypeVal .SUBSCRIBE_OK)).length = c
      rw [hbuf, List.drop_left]
    rw [hbody]
    exact (goodP_map hg).2
  | subscribeError msg =>
    obtain ⟨c, hbuf, hg⟩ := goodMsg_subscribeError msg h
    have hbody : controlBody (.subscribeError msg) = c := by
      show ((writeSubscribeError wstate0 msg).buf).drop (encVarint (frameTypeVal .SUBSCRIBE_ERROR)).length = c
      rw [hbuf, List.drop_left]
    rw [hbody]
    exact (goodP_map hg).2
  | unsubscribe msg =>
    obtain ⟨c, hbuf, hg⟩ := goodMsg_unsubscribe msg h
    have hbody : controlBody (.unsubscribe msg) = c := by
      show ((writeUnsubscribe wstate0 msg).buf).drop (encVarint (frameTypeVal .UNSUBSCRIBE)).length = c
      rw [hbuf, List.drop_left]
    rw [hbody]
    exact (goodP_map hg).2
  | subscribeDone msg =>
    obtain ⟨c, hbuf, hg⟩ := goodMsg_subscribeDone msg h
    have hbody : controlBody (.subscribeDone msg) = c := by
      show ((writeSubscribeDone wstate0 msg).buf).drop (encVarint (frameTypeVal .SUBSCRIBE_DONE)).length = c
      rw [hbuf, List.drop_left]
    rw [hbody]
    exact (goodP_map hg).2
  | announce msg =>
    obtain ⟨c, hbuf, hg⟩ := goodMsg_announce msg h
    have hbody : controlBody (.announce msg) = c := by
      show ((writeAnnounce wstate0 msg).buf).drop (encVarint (frameTypeVal .ANNOUNCE)).length = c
      rw [hbuf, List.drop_left]
    rw [hbody]
    exact (goodP_map hg).2
  | announceOk msg =>
    obtain ⟨c, hbuf, hg⟩ := goodMsg_announceOk msg h
    have hbody : controlBody (.announceOk msg) = c := by
      show ((writeAnnounceOk wstate0 msg).buf).drop (encVarint (frameTypeVal .ANNOUNCE_OK)).length = c
      rw [hbuf, List.drop_left]
    rw [hbody]
    exact (goodP_map hg).2
  | announceError msg =>
    obtain ⟨c, hbuf, hg⟩ := goodMsg_announceError msg h
    have hbody : controlBody (.announceError msg) = c := by
      show ((writeAnnounceError wstate0 msg).buf).drop (encVarint (frameTypeVal .ANNOUNCE_ERROR)).length = c
      rw [hbuf, List.drop_left]
    rw [hbody]
    exact (goodP_map hg).2
  | unannounce msg =>
    obtain ⟨c, hbuf, hg⟩ := goodMsg_unannounce msg h
    have hbody : controlBody (.unannounce msg) = c := by
      show ((writeUnannounce wstate0 msg).buf).drop (encVarint (frameTypeVal .UNANNOUNCE)).length = c
      rw [hbuf, List.drop_left]
    rw [hbody]
    exact (goodP_map hg).2
  | announceCancel msg =>
    obtain ⟨c, hbuf, hg⟩ := goodMsg_announceCancel msg h
    have hbody : controlBody (.announceCancel msg) = c := by
      show ((writeAnnounceCancel wstate0 msg).buf).drop (encVarint (frameTypeVal .ANNOUNCE_CANCEL)).length = c
      rw [hbuf, List.drop_left]
    rw [hbody]
    exact (goodP_map hg).2
  | trackStatusRequest msg =>
    obtain ⟨c, hbuf, hg⟩ := goodMsg_trackStatusRequest msg h
    have hbody : controlBody (.trackStatusRequest msg) = c := by
      show ((writeTrackStatusRequest wstate0 msg).buf).drop (encVarint (frameTypeVal .TRACK_STATUS_REQUEST)).length = c
      rw [hbuf, List.drop_left]
    rw [hbody]
    exact (goodP_map hg).2
  | trackStatus msg =>
    obtain ⟨c, hbuf, hg⟩ := goodMsg_trackStatus msg h
    have hbody : controlBody (.trackStatus msg) = c := by
      show ((writeTrackStatus wstate0 msg).buf).drop (encVarint (frameTypeVal .TRACK_STATUS)).length = c
      rw [hbuf, List.drop_left]
    rw [hbody]
    exact (goodP_map hg).2
  | goaway msg =>
    obtain ⟨c, hbuf, hg⟩ := goodMsg_goaway msg h
    have hbody : controlBody (.goaway msg) = c := by
      show ((writeGoaway wstate0 msg).buf).drop (encVarint (frameTypeVal .GOAWAY)).length = c
      rw [hbuf, List.drop_left]
    rw [hbody]
    exact (goodP_map hg).2

/-- C5 witness: a concrete instantiation — one byte cut off a written
`GOAWAY` body yields `PARSE_UNDERFLOW`. -/
theorem c5_witness :
    parseOfMsg (.goaway ⟨[97]⟩) ((controlBody (.goaway ⟨[97]⟩)).take 1)
      = Except.error ErrorCode.PARSE_UNDERFLOW :=
  c5_parser_never_overreads (.goaway ⟨[97]⟩) (by decide) 1 (by decide)

/-- C1 (failing-input evaluation): `parseTrackStatus` checks the parsed full
track name for errors but never stores it, so the round trip of a
`TrackStatus` with a non-empty name returns the default empty name — the
`parse(encode(m)) = m` invariant fails on `TRACK_STATUS`. -/
theorem c1_trackStatus_name_dropped :
    parseTrackStatus ((writeTrackStatus wstate0 tsInput).buf.drop
        (encVarint (frameTypeVal .TRACK_STATUS)).length)
      = Except.ok (trackStatusParsedVal tsInput, []) ∧
    (trackStatusParsedVal tsInput).fullTrackName ≠ tsInput.fullTrackName := by
  constructor
  · rfl
  · decide

/-- One-byte read under `pBind`. -/
theorem pByte_consume {β : Type} (f : Nat → Parser β) (b : Nat) (rest : List Nat) :
    pBind pByte f (b :: rest) = f b rest := rfl

/-- Two-byte read under `pBind`. -/
theorem pByte2_consume {β : Type} (f : Nat × Nat → Parser β) (b1 b2 : Nat) (rest : List Nat) :
    pBind pByte2 f (b1 :: b2 :: rest) = f (b1, b2) rest := rfl

/-- C2: out-of-range enum values are rejected with the specified error kinds:
an object status above `EndOfTrackAndGroup = 4` yields `PARSE_ERROR` from
`parseObjectHeader`; a location type above `AbsoluteRange = 4` yields
`PARSE_ERROR` from `parseSubscribeRequest`; a zero group-order byte yields
`INVALID_MESSAGE` from `parseSubscribeOk` — in each case with all earlier
fields well-formed. -/
theorem c2_out_of_range_enums_rejected :
    (∀ (ft : FrameType) (a b g i p status : Nat) (rest : List Nat),
      a < kVarintMax → b < kVarintMax → g < kVarintMax → i < kVarintMax →
      4 < status → status < kVarintMax →
      parseObjectHeader ft (encVarint a ++ (encVarint b ++ (encVarint g ++ (encVarint i ++
        (p :: (encVarint status ++ rest)))))) = Except.error ErrorCode.PARSE_ERROR) ∧
    (∀ (sid ta : Nat) (ns nm : List Nat) (p ord lt : Nat) (rest : List Nat),
      sid < kVarintMax → ta < kVarintMax → strWf ns → strWf nm → ord ≤ 2 →
      4 < lt → lt < kVarintMax →
      parseSubscribeRequest (encVarint sid ++ (encVarint ta ++ (ftnBytes ⟨ns, nm⟩ ++
        (p :: (ord :: (encVarint lt ++ rest)))))) = Except.error ErrorCode.PARSE_ERROR) ∧
    (∀ (sid expires ce : Nat) (rest : List Nat),
      sid < kVarintMax → expires < kVarintMax →
      parseSubscribeOk (encVarint sid ++ (encVarint expires ++ (0 :: (ce :: rest))))
        = Except.error ErrorCode.INVALID_MESSAGE) := by
  refine ⟨?_, ?_, ?_⟩
  · intro ft a b g i p status rest ha hb hg hi hs hs'
    simp only [parseObjectHeader, pBind_consume (goodP_varint a ha),
      pBind_consume (goodP_varint b hb), pBind_consume (goodP_varint g hg),
      pBind_consume (goodP_varint i hi), pByte_consume,
      pBind_consume (goodP_varint status hs'), hs, if_true, pFail]
  · intro sid ta ns nm p ord lt rest h1 h2 h3 h4 h5 h6 h7
    have hord : ¬(2 < (p, ord).2) := by simpa using Nat.not_lt.mpr h5
    simp only [parseSubscribeRequest, pBind_consume (goodP_varint sid h1),
      pBind_consume (goodP_varint ta h2),
      pBind_consume (goodP_fullTrackName ⟨ns, nm⟩ h3 h4), pByte2_consume,
      hord, if_false, pBind_consume (goodP_varint lt h7), h6, if_true, pFail]
  · intro sid expires ce rest h1 h2
    simp only [parseSubscribeOk, pBind_consume (goodP_varint sid h1),
      pBind_consume (goodP_varint expires h2), pByte2_consume]
    simp [pFail]

/-- C2 witness: concrete rejected inputs for all three conjuncts. -/
theorem c2_witness :
    parseObjectHeader .OBJECT_STREAM (encVarint 1 ++ (encVarint 1 ++ (encVarint 5 ++
        (encVarint 0 ++ (128 :: (encVarint 5 ++ []))))))
      = Except.error ErrorCode.PARSE_ERROR ∧
    parseSubscribeRequest (encVarint 1 ++ (encVarint 2 ++ (ftnBytes ⟨[110], [116]⟩ ++
        (9 :: (1 :: (encVarint 5 ++ []))))))
      = Except.error ErrorCode.PARSE_ERROR ∧
    parseSubscribeOk (encVarint 7 ++ (encVarint 250 ++ (0 :: (1 :: []))))
      = Except.error ErrorCode.INVALID_MESSAGE :=
  ⟨c2_out_of_range_enums_rejected.1 .OBJECT_STREAM 1 1 5 0 128 5 [] (by decide) (by decide)
      (by decide) (by decide) (by decide) (by decide),
   c2_out_of_range_enums_rejected.2.1 1 2 [110] [116] 9 1 5 [] (by decide) (by decide)
      (by decide) (by decide) (by decide) (by decide) (by decide),
   c2_out_of_range_enums_rejected.2.2 7 250 1 [] (by decide) (by decide)⟩

/-- C3: `writeSubscribeError` always appends a trailing retry-alias varint
(`retryAlias.value_or(0)`), and `parseSubscribeError` always consumes a
trailing varint but stores it in `retryAlias` exactly when the error code is
`RETRY_TRACK_ALIAS`. -/
theorem c3_subscribeError_retryAlias :
    (∀ m : SubscribeError, wfSubscribeError m →
      (writeSubscribeError wstate0 m).buf
        = encVarint (frameTypeVal .SUBSCRIBE_ERROR) ++ encVarint m.subscribeID ++
          encVarint m.errorCode ++ fsBytes m.reasonPhrase ++
          encVarint (m.retryAlias.getD 0)) ∧
    (∀ (sid ec ral : Nat) (reason rest' : List Nat),
      sid < kVarintMax → ec < kVarintMax → strWf reason → ral < kVarintMax →
      parseSubscribeError (encVarint sid ++ (encVarint ec ++ (fsBytes reason ++
        (encVarint ral ++ rest'))))
        = Except.ok
            ({ subscribeID := sid, errorCode := ec, reasonPhrase := reason,
                retryAlias := if ec = kRetryTrackAlias then some ral else none },
             rest')) := by
  constructor
  · intro m h
    obtain ⟨sid, ec, rp, ra⟩ := m
    obtain ⟨h1, h2, h3, h4, h5⟩ := h
    have htag : frameTypeVal FrameType.SUBSCRIBE_ERROR < kVarintMax := by decide
    show (writeVarint (writeFixedString (writeVarint (writeVarint (writeVarint wstate0
      (frameTypeVal .SUBSCRIBE_ERROR)) sid) ec) rp) (ra.getD 0)).buf = _
    rw [show wstate0 = ⟨[], 0, false⟩ from rfl, wv_ok _ _ _ htag, wv_ok _ _ _ h1,
      wv_ok _ _ _ h2, wfs_ok _ _ _ h3, wv_ok _ _ _ h5]
    simp [List.append_assoc]
  · intro sid ec ral reason rest' h1 h2 h3 h4
    simp only [parseSubscribeError, pBind_consume (goodP_varint sid h1),
      pBind_consume (goodP_varint ec h2), pBind_consume (goodP_fixedString reason h3),
      pBind_consume (goodP_varint ral h4), pPure]

/-- C3 witness: a retryable and a non-retryable error at concrete inputs. -/
theorem c3_witness :
    (writeSubscribeError wstate0
        { subscribeID := 4, errorCode := 1, reasonPhrase := [97], retryAlias := none }).buf
      = encVarint (frameTypeVal .SUBSCRIBE_ERROR) ++ encVarint 4 ++ encVarint 1 ++
        fsBytes [97] ++ encVarint 0 ∧
    parseSubscribeError (encVarint 4 ++ (encVarint 2 ++ (fsBytes [97] ++ (encVarint 12 ++ []))))
      = Except.ok
          ({ subscribeID := 4, errorCode := 2, reasonPhrase := [97],
              retryAlias := if 2 = kRetryTrackAlias then some 12 else none },
           []) :=
  ⟨c3_subscribeError_retryAlias.1 _ (by decide),
   c3_subscribeError_retryAlias.2 4 2 12 [97] [] (by decide) (by decide) (by decide) (by decide)⟩

/-- C4: scenario S1 — the post-tag wire bytes of
`SubscribeOk{subId=7, expires=250ms, groupOrder=OldestFirst, latest=(42,3),
params=[]}` are exactly `07 40 FA 01 01 2A 03 00`, and parsing them yields
the same structure. -/
theorem c4_subscribeOk_wire_s1 :
    (writeSubscribeOk wstate0 s1SubscribeOk).buf.drop
        (encVarint (frameTypeVal .SUBSCRIBE_OK)).length
      = [0x07, 0x40, 0xFA, 0x01, 0x01, 0x2A, 0x03, 0x00] ∧
    (writeSubscribeOk wstate0 s1SubscribeOk).error = false ∧
    parseSubscribeOk [0x07, 0x40, 0xFA, 0x01, 0x01, 0x2A, 0x03, 0x00]
      = Except.ok (s1SubscribeOk, []) :=
  ⟨rfl, rfl, rfl⟩

/-- C6 (failing-input evaluation): `PublishKey::operator==` does not compare
`group` for the `Object` and `Datagram` preferences — two keys differing only
in `group` compare equal, contradicting the full-tuple equality the spec
states (and that `PublishKey::hash`, which does combine `group`, expects). -/
theorem c6_publishKey_eq_ignores_group :
    pkEq ⟨1, 0, .Object, 5⟩ ⟨1, 1, .Object, 5⟩ = true ∧
    pkEq ⟨2, 3, .Datagram, 7⟩ ⟨2, 4, .Datagram, 7⟩ = true ∧
    (PublishKey.mk 1 0 .Object 5).group ≠ (PublishKey.mk 1 1 .Object 5).group := by
  decide

/-- C7 (failing-input evaluation): `PublishKey::hash` is not consistent with
`PublishKey::operator==` — for the `Object` preference, two keys that compare
equal (`group` is ignored by `==`) feed different argument tuples to
`hash_combine` and hash differently, violating the property the
`publishDataMap_` hash map relies on. -/
theorem c7_publishKey_hash_inconsistent :
    pkEq ⟨1, 0, .Object, 5⟩ ⟨1, 1, .Object, 5⟩ = true ∧
    pkHashInput ⟨1, 0, .Object, 5⟩ ≠ pkHashInput ⟨1, 1, .Object, 5⟩ ∧
    pkHash ⟨1, 0, .Object, 5⟩ ≠ pkHash ⟨1, 1, .Object, 5⟩ := by
  decide

/-- C8: de-jitter scenario S5 with capacity 3 — inserts
`(2,2),(0,0),(3,3),(4,4),(5,5)` give three `FILLING_BUFFER` reports, then
emit item 0 with `NO_GAP` size 0, then item 2 with `GAP` size 1; the reported
size never exceeds 3. -/
theorem c8_dejitter_gap_of_one :
    s5Step1.1 = (none, ⟨.FILLING_BUFFER, 0⟩) ∧ s5Step1.2.size = 1 ∧
    s5Step2.1 = (none, ⟨.FILLING_BUFFER, 0⟩) ∧ s5Step2.2.size = 2 ∧
    s5Step3.1 = (none, ⟨.FILLING_BUFFER, 0⟩) ∧ s5Step3.2.size = 3 ∧
    s5Step4.1 = (some 0, ⟨.NO_GAP, 0⟩) ∧ s5Step4.2.size = 3 ∧
    s5Step5.1 = (some 2, ⟨.GAP, 1⟩) ∧ s5Step5.2.size = 3 := by
  decide

/-- The dequeue loop of `payload()` concatenates queued chunks up to and
including the null marker. -/
theorem drainPayload_until_marker (chunks : List (List Nat))
    (rest : List (Option (List Nat))) :
    drainPayload (chunks.map Option.some ++ none :: rest)
      = (.bytes chunks.flatten, rest) := by
  induction chunks with
  | nil => rfl
  | cons c cs ih =>
    simp only [List.map_cons, List.cons_append, drainPayload, List.append_eq, ih, List.flatten]

/-- C10: `ObjectSource::payload()` returns `nullptr` immediately — without
dequeuing anything — whenever the header status is not `NORMAL`, and only for
`NORMAL` drains queued chunks until the null end-of-payload marker, returning
their concatenation. -/
theorem c10_payload_status_gate :
    (∀ (status : Nat) (payloadQueue : List (Option (List Nat))), status ≠ 0 →
      objectSourcePayload status payloadQueue = (.nullBuf, payloadQueue)) ∧
    (∀ (chunks : List (List Nat)) (rest : List (Option (List Nat))),
      objectSourcePayload 0 (chunks.map Option.some ++ none :: rest)
        = (.bytes chunks.flatten, rest)) := by
  constructor
  · intro status payloadQueue h
    simp [objectSourcePayload, h]
  · intro chunks rest
    simp [objectSourcePayload, drainPayload_until_marker]

/-- C10 witness: concrete instantiations of both conjuncts. -/
theorem c10_witness :
    objectSourcePayload 1 [some [5]] = (.nullBuf, [some [5]]) ∧
    objectSourcePayload 0 [some [1, 2], some [3], none, some [9]]
      = (.bytes [1, 2, 3], [some [9]]) :=
  ⟨c10_payload_status_gate.1 1 [some [5]] (by decide),
   c10_payload_status_gate.2 [[1, 2], [3]] [some [9]]⟩

/-- C9: on success, the returned size counts only the bytes written through
`writeVarint` / `writeFixedString`; the raw `writeBuf.append` bytes — the
priority and group-order bytes of `writeSubscribeRequest`, the group-order
byte of `writeSubscribeOk`, the priority byte of `writeSubscribeUpdate`, and
the priority byte (and payload) of `writeObject`'s single-object path — are
appended but not counted, so the returned size is strictly smaller than the
number of appended bytes. -/
theorem c9_write_size_excludes_raw_bytes :
    (∀ m : SubscribeRequest, wfSubscribeRequest m →
      (writeSubscribeRequest wstate0 m).error = false ∧
      (writeSubscribeRequest wstate0 m).size + 2 = (writeSubscribeRequest wstate0 m).buf.length) ∧
    (∀ m : SubscribeOk, wfSubscribeOk m →
      (writeSubscribeOk wstate0 m).error = false ∧
      (writeSubscribeOk wstate0 m).size + 1 = (writeSubscribeOk wstate0 m).buf.length) ∧
    (∀ m : SubscribeUpdate, wfSubscribeUpdate m →
      (writeSubscribeUpdate wstate0 m).error = false ∧
      (writeSubscribeUpdate wstate0 m).size + 1 = (writeSubscribeUpdate wstate0 m).buf.length) ∧
    (∀ (objectHeader : ObjectHeader) (p : List Nat), wfObjectSingle objectHeader →
      (writeObject wstate0 objectHeader (some p)).error = false ∧
      (writeObject wstate0 objectHeader (some p)).size + 1 + p.length
        = (writeObject wstate0 objectHeader (some p)).buf.length) := by
  refine ⟨?_, ?_, ?_, ?_⟩
  · intro m h
    obtain ⟨sid, ta, ftn, prio, go, lt, start, endLoc, ps⟩ := m
    obtain ⟨h1, h2, h3, h4, h5, h6, h7, h8, h9, h10, h11, h12, h13⟩ := h
    have h7' : lt ≤ 4 := h7
    have h8c : start.isSome ↔ (lt = 3 ∨ lt = 4) := h8
    have h9c : endLoc.isSome ↔ lt = 4 := h9
    have htag : frameTypeVal FrameType.SUBSCRIBE < kVarintMax := by decide
    by_cases hl4 : lt = 4
    · subst hl4
      obtain ⟨s, rfl⟩ := Option.isSome_iff_exists.mp (h8c.mpr (by decide))
      obtain ⟨e, rfl⟩ := Option.isSome_iff_exists.mp (h9c.mpr rfl)
      have hs : locWf s := h10
      have he : locWf e := h11
      obtain ⟨B, S, hw, harith⟩ :
          ∃ B S, writeTrackParams (writeVarint (writeVarint (writeVarint (writeVarint
            (writeVarint (writeVarint (appendRawByte (appendRawByte (writeFullTrackName
            (writeVarint (writeVarint (writeVarint wstate0 (frameTypeVal .SUBSCRIBE)) sid) ta)
            ftn) prio) go) 4) s.group) s.object) e.group) e.object) ps.length) ps
            = ⟨B, S, false⟩ ∧ S + 2 = B.length :=
        ⟨_, _, by
          rw [show wstate0 = ⟨[], 0, false⟩ from rfl, wv_ok _ _ _ htag, wv_ok _ _ _ h1,
            wv_ok _ _ _ h2, wftn_ok _ _ _ h3 h4, arb_ok, arb_ok, wv_ok _ _ _ (by decide),
            wv_ok _ _ _ hs.1, wv_ok _ _ _ hs.2, wv_ok _ _ _ he.1, wv_ok _ _ _ he.2,
            wv_ok _ _ _ h12, writeTrackParams_ok ps h13 _ _], by
          simp [ftnBytes, fsBytes, List.length_append]
          omega⟩
      have hw' : writeSubscribeRequest wstate0 ⟨sid, ta, ftn, prio, go, 4, some s, some e, ps⟩
          = ⟨B, S, false⟩ := hw
      rw [hw']
      exact ⟨rfl, harith⟩
    · by_cases hl3 : lt = 3
      · subst hl3
        obtain ⟨s, rfl⟩ := Option.isSome_iff_exists.mp (h8c.mpr (by decide))
        have hend : endLoc = none := by
          rcases endLoc with - | e
          · rfl
          · exact absurd (h9c.mp rfl) (by decide)
        subst hend
        have hs : locWf s := h10
        obtain ⟨B, S, hw, harith⟩ :
            ∃ B S, writeTrackParams (writeVarint (writeVarint (writeVarint (writeVarint
              (appendRawByte (appendRawByte (writeFullTrackName (writeVarint (writeVarint
              (writeVarint wstate0 (frameTypeVal .SUBSCRIBE)) sid) ta) ftn) prio) go) 3)
              s.group) s.object) ps.length) ps
              = ⟨B, S, false⟩ ∧ S + 2 = B.length :=
          ⟨_, _, by
            rw [show wstate0 = ⟨[], 0, false⟩ from rfl, wv_ok _ _ _ htag, wv_ok _ _ _ h1,
              wv_ok _ _ _ h2, wftn_ok _ _ _ h3 h4, arb_ok, arb_ok, wv_ok _ _ _ (by decide),
              wv_ok _ _ _ hs.1, wv_ok _ _ _ hs.2, wv_ok _ _ _ h12,
              writeTrackParams_ok ps h13 _ _], by
            simp [ftnBytes, fsBytes, List.length_append]
            omega⟩
        have hw' : writeSubscribeRequest wstate0 ⟨sid, ta, ftn, prio, go, 3, some s, none, ps⟩
            = ⟨B, S, false⟩ := hw
        rw [hw']
        exact ⟨rfl, harith⟩
      · have hor : ¬(lt = 3 ∨ lt = 4) := not_or.mpr ⟨hl3, hl4⟩
        have hstart : start = none := by
          rcases start with - | s
          · rfl
          · exact absurd (h8c.mp rfl) hor
        have hend : endLoc = none := by
          rcases endLoc with - | e
          · rfl
          · exact absurd (h9c.mp rfl) hl4
        subst hstart
        subst hend
        obtain ⟨B, S, hw, harith⟩ :
            ∃ B S, writeTrackParams (writeVarint (writeVarint (appendRawByte (appendRawByte
              (writeFullTrackName (writeVarint (writeVarint (writeVarint wstate0
              (frameTypeVal .SUBSCRIBE)) sid) ta) ftn) prio) go) lt) ps.length) ps
              = ⟨B, S, false⟩ ∧ S + 2 = B.length :=
          ⟨_, _, by
            rw [show wstate0 = ⟨[], 0, false⟩ from rfl, wv_ok _ _ _ htag, wv_ok _ _ _ h1,
              wv_ok _ _ _ h2, wftn_ok _ _ _ h3 h4, arb_ok, arb_ok,
              wv_ok _ _ _ (by rw [kVarintMax]; omega), wv_ok _ _ _ h12,
              writeTrackParams_ok ps h13 _ _], by
            simp [ftnBytes, fsBytes, List.length_append]
            omega⟩
        have hw' : writeSubscribeRequest wstate0 ⟨sid, ta, ftn, prio, go, lt, none, none, ps⟩
            = ⟨B, S, false⟩ := by
          simp only [writeSubscribeRequest]
          rw [if_neg hor, if_neg hl4]
          exact hw
        rw [hw']
        exact ⟨rfl, harith⟩
  · intro m h
    obtain ⟨sid, exp, go, latest, ps⟩ := m
    obtain ⟨h1, h2, h3, h4, h5, h6⟩ := h
    have htag : frameTypeVal FrameType.SUBSCRIBE_OK < kVarintMax := by decide
    rcases latest with - | l
    · obtain ⟨B, S, hw, harith⟩ :
          ∃ B S, writeTrackParams (writeVarint (writeVarint (appendRawByte (writeVarint
            (writeVarint (writeVarint wstate0 (frameTypeVal .SUBSCRIBE_OK)) sid) exp) go) 0)
            ps.length) ps = ⟨B, S, false⟩ ∧ S + 1 = B.length :=
        ⟨_, _, by
          rw [show wstate0 = ⟨[], 0, false⟩ from rfl, wv_ok _ _ _ htag, wv_ok _ _ _ h1,
            wv_ok _ _ _ h2, arb_ok, wv_ok _ _ _ (by decide), wv_ok _ _ _ h5,
            writeTrackParams_ok ps h6 _ _], by
          simp [ftnBytes, fsBytes, List.length_append]
          omega⟩
      have hw' : writeSubscribeOk wstate0 ⟨sid, exp, go, none, ps⟩ = ⟨B, S, false⟩ := hw
      rw [hw']
      exact ⟨rfl, harith⟩
    · have hl : locWf l := h4
      obtain ⟨B, S, hw, harith⟩ :
          ∃ B S, writeTrackParams (writeVarint (writeVarint (writeVarint (writeVarint
            (appendRawByte (writeVarint (writeVarint (writeVarint wstate0
            (frameTypeVal .SUBSCRIBE_OK)) sid) exp) go) 1) l.group) l.object)
            ps.length) ps = ⟨B, S, false⟩ ∧ S + 1 = B.length :=
        ⟨_, _, by
          rw [show wstate0 = ⟨[], 0, false⟩ from rfl, wv_ok _ _ _ htag, wv_ok _ _ _ h1,
            wv_ok _ _ _ h2, arb_ok, wv_ok _ _ _ (by decide), wv_ok _ _ _ hl.1,
            wv_ok _ _ _ hl.2, wv_ok _ _ _ h5, writeTrackParams_ok ps h6 _ _], by
          simp [ftnBytes, fsBytes, List.length_append]
          omega⟩
      have hw' : writeSubscribeOk wstate0 ⟨sid, exp, go, some l, ps⟩ = ⟨B, S, false⟩ := hw
      rw [hw']
      exact ⟨rfl, harith⟩
  · intro m h
    obtain ⟨sid, start, endLoc, prio, ps⟩ := m
    obtain ⟨h1, h2, h3, h4, h5, h6⟩ := h
    have htag : frameTypeVal FrameType.SUBSCRIBE_UPDATE < kVarintMax := by decide
    obtain ⟨B, S, hw, harith⟩ :
        ∃ B S, writeTrackParams (writeVarint (appendRawByte (writeVarint (writeVarint
          (writeVarint (writeVarint (writeVarint (writeVarint wstate0
          (frameTypeVal .SUBSCRIBE_UPDATE)) sid) start.group) start.object) endLoc.group)
          endLoc.object) prio) ps.length) ps = ⟨B, S, false⟩ ∧ S + 1 = B.length :=
      ⟨_, _, by
        rw [show wstate0 = ⟨[], 0, false⟩ from rfl, wv_ok _ _ _ htag, wv_ok _ _ _ h1,
          wv_ok _ _ _ h2.1, wv_ok _ _ _ h2.2, wv_ok _ _ _ h3.1, wv_ok _ _ _ h3.2, arb_ok,
          wv_ok _ _ _ h5, writeTrackParams_ok ps h6 _ _], by
        simp [List.length_append]
        omega⟩
    have hw' : writeSubscribeUpdate wstate0 ⟨sid, start, endLoc, prio, ps⟩ = ⟨B, S, false⟩ := hw
    rw [hw']
    exact ⟨rfl, harith⟩
  · intro objectHeader p h
    obtain ⟨sid, ta, g, i, prio, fp, stt, len⟩ := objectHeader
    obtain ⟨hpref, h1, h2, h3, h4, h5, h6⟩ := h
    rcases hpref with rfl | rfl
    · obtain ⟨B, S, hw, harith⟩ :
          ∃ B S, writeVarint (appendRawByte (writeVarint (writeVarint (writeVarint (writeVarint
            (writeVarint wstate0 (frameTypeVal .OBJECT_STREAM)) sid) ta) g) i) prio) stt
            = ⟨B, S, false⟩ ∧ S + 1 + p.length = (B ++ p).length :=
        ⟨_, _, by
          rw [show wstate0 = ⟨[], 0, false⟩ from rfl, wv_ok _ _ _ (by decide), wv_ok _ _ _ h1,
            wv_ok _ _ _ h2, wv_ok _ _ _ h3, wv_ok _ _ _ h4, arb_ok, wv_ok _ _ _ h6], by
          simp [ftnBytes, fsBytes, List.length_append]
          omega⟩
      have hobj : writeObject wstate0 ⟨sid, ta, g, i, prio, .Object, stt, len⟩ (some p)
          = ⟨B ++ p, S, false⟩ := by
        rw [show writeObject wstate0 ⟨sid, ta, g, i, prio, .Object, stt, len⟩ (some p)
            = if (writeVarint (appendRawByte (writeVarint (writeVarint (writeVarint (writeVarint
                (writeVarint wstate0 (frameTypeVal .OBJECT_STREAM)) sid) ta) g) i) prio)
                stt).error = true
              then writeVarint (appendRawByte (writeVarint (writeVarint (writeVarint (writeVarint
                (writeVarint wstate0 (frameTypeVal .OBJECT_STREAM)) sid) ta) g) i) prio) stt
              else { writeVarint (appendRawByte (writeVarint (writeVarint (writeVarint
                (writeVarint (writeVarint wstate0 (frameTypeVal .OBJECT_STREAM)) sid) ta) g) i)
                prio) stt with
                  buf := (writeVarint (appendRawByte (writeVarint (writeVarint (writeVarint
                    (writeVarint (writeVarint wstate0 (frameTypeVal .OBJECT_STREAM)) sid) ta) g)
                    i) prio) stt).buf ++ p } from rfl, hw]
        simp
      rw [hobj]
      exact ⟨rfl, harith⟩
    · obtain ⟨B, S, hw, harith⟩ :
          ∃ B S, writeVarint (appendRawByte (writeVarint (writeVarint (writeVarint (writeVarint
            (writeVarint wstate0 (frameTypeVal .OBJECT_DATAGRAM)) sid) ta) g) i) prio) stt
            = ⟨B, S, false⟩ ∧ S + 1 + p.length = (B ++ p).length :=
        ⟨_, _, by
          rw [show wstate0 = ⟨[], 0, false⟩ from rfl, wv_ok _ _ _ (by decide), wv_ok _ _ _ h1,
            wv_ok _ _ _ h2, wv_ok _ _ _ h3, wv_ok _ _ _ h4, arb_ok, wv_ok _ _ _ h6], by
          simp [ftnBytes, fsBytes, List.length_append]
          omega⟩
      have hobj : writeObject wstate0 ⟨sid, ta, g, i, prio, .Datagram, stt, len⟩ (some p)
          = ⟨B ++ p, S, false⟩ := by
        rw [show writeObject wstate0 ⟨sid, ta, g, i, prio, .Datagram, stt, len⟩ (some p)
            = if (writeVarint (appendRawByte (writeVarint (writeVarint (writeVarint (writeVarint
                (writeVarint wstate0 (frameTypeVal .OBJECT_DATAGRAM)) sid) ta) g) i) prio)
                stt).error = true
              then writeVarint (appendRawByte (writeVarint (writeVarint (writeVarint (writeVarint
                (writeVarint wstate0 (frameTypeVal .OBJECT_DATAGRAM)) sid) ta) g) i) prio) stt
              else { writeVarint (appendRawByte (writeVarint (writeVarint (writeVarint
                (writeVarint (writeVarint wstate0 (frameTypeVal .OBJECT_DATAGRAM)) sid) ta) g) i)
                prio) stt with
                  buf := (writeVarint (appendRawByte (writeVarint (writeVarint (writeVarint
                    (writeVarint (writeVarint wstate0 (frameTypeVal .OBJECT_DATAGRAM)) sid) ta)
                    g) i) prio) stt).buf ++ p } from rfl, hw]
        simp
      rw [hobj]
      exact ⟨rfl, harith⟩

/-- C9 witness: concrete messages for all four write functions. -/
theorem c9_witness :
    ((writeSubscribeRequest wstate0 ⟨1, 2, ⟨[110], [116]⟩, 9, 2, 4, some ⟨1, 1⟩, some ⟨2, 2⟩,
        []⟩).error = false ∧
      (writeSubscribeRequest wstate0 ⟨1, 2, ⟨[110], [116]⟩, 9, 2, 4, some ⟨1, 1⟩, some ⟨2, 2⟩,
        []⟩).size + 2
        = (writeSubscribeRequest wstate0 ⟨1, 2, ⟨[110], [116]⟩, 9, 2, 4, some ⟨1, 1⟩,
          some ⟨2, 2⟩, []⟩).buf.length) ∧
    ((writeSubscribeOk wstate0 s1SubscribeOk).error = false ∧
      (writeSubscribeOk wstate0 s1SubscribeOk).size + 1
        = (writeSubscribeOk wstate0 s1SubscribeOk).buf.length) ∧
    ((writeSubscribeUpdate wstate0 ⟨3, ⟨0, 0⟩, ⟨1, 1⟩, 7, []⟩).error = false ∧
      (writeSubscribeUpdate wstate0 ⟨3, ⟨0, 0⟩, ⟨1, 1⟩, 7, []⟩).size + 1
        = (writeSubscribeUpdate wstate0 ⟨3, ⟨0, 0⟩, ⟨1, 1⟩, 7, []⟩).buf.length) ∧
    ((writeObject wstate0 ⟨1, 1, 5, 0, 128, .Object, 0, none⟩ (some [97, 98, 99])).error
        = false ∧
      (writeObject wstate0 ⟨1, 1, 5, 0, 128, .Object, 0, none⟩ (some [97, 98, 99])).size + 1 + 3
        = (writeObject wstate0 ⟨1, 1, 5, 0, 128, .Object, 0, none⟩
            (some [97, 98, 99])).buf.length) :=
  ⟨c9_write_size_excludes_raw_bytes.1 _ (by decide),
   c9_write_size_excludes_raw_bytes.2.1 s1SubscribeOk (by decide),
   c9_write_size_excludes_raw_bytes.2.2.1 _ (by decide),
   c9_write_size_excludes_raw_bytes.2.2.2 _ [97, 98, 99] (by decide)⟩

end MoQ




